import Mathlib

/-!
Verification of the School-Nurse-Health-Log record normalization, migration,
storage and spreadsheet import/export logic, as a shallow embedding in Lean.

Strings are modelled as lists of characters (`Str`); the SQLite store is a
list of association-list rows, mirroring the dict-based rows the Python code
passes around; machine arithmetic uses `Nat`/`Int`/`Rat`.
-/

namespace HealthLog

/-- Character strings of the embedded program. -/
abbrev Str := List Char

/-- ASCII whitespace recognised by Python `str.strip()` (common subset). -/
def isSpaceChar (c : Char) : Bool :=
  c == ' ' || c == '\t' || c == '\n' || c == '\r'

/-- Drop leading whitespace. -/
def dropLead : Str → Str
  | [] => []
  | c :: cs => if isSpaceChar c then dropLead cs else c :: cs

/-- Python `str.strip()`: drop leading and trailing whitespace. -/
def trimStr (s : Str) : Str :=
  ((dropLead ((dropLead s).reverse)).reverse)

/-- ASCII lowercase of a string (Python `str.lower()` restricted to ASCII). -/
def lowStr (s : Str) : Str := s.map Char.toLower

/-- Exact leading match. -/
def leadSeq : Str → Str → Bool
  | [], _ => true
  | _ :: _, [] => false
  | a :: as, b :: bs => a == b && leadSeq as bs

/-- Exact (case-sensitive) substring containment. -/
def hasSeq : Str → Str → Bool
  | t, [] => leadSeq t []
  | t, c :: s' => leadSeq t (c :: s') || hasSeq t s'


/-- Decimal value of a digit string, as `int()` reads an all-digit string. -/
def decVal (s : Str) : Nat :=
  s.foldl (fun a c => a * 10 + (c.toNat - 48)) 0

/-! ## Blood-pressure parsing (src/app/controllers/main.py lines 443-451)

`re.split(r"[^0-9]", bp_text)` cuts the string at every non-digit character,
yielding maximal digit runs interleaved with empty segments; the list
comprehension keeps the segments whose `strip()` is truthy, i.e. the
non-empty (all-digit) segments. -/

/-- `re.split("[^0-9]", s)`: the segments between non-digit characters. -/
def splitND : Str → List Str
  | [] => [[]]
  | c :: cs =>
    if c.isDigit then
      match splitND cs with
      | g :: gs => (c :: g) :: gs
      | [] => [[c]]
    else
      [] :: splitND cs

/-- The non-empty digit runs of a string (the retained `parts`). -/
def digitRuns (s : Str) : List Str :=
  (splitND s).filter (fun p => p ≠ [])

/-- The blood-pressure field parser of `import_from_excel`:
`parts = [p for p in re.split(r"[^0-9]", bp_text) if p.strip()]`, and when at
least two parts exist, systolic is `int(parts[0])` and diastolic is
`int(parts[1])`; otherwise both stay `None`. -/
def bpParse (s : Str) : Option Nat × Option Nat :=
  match digitRuns s with
  | p1 :: p2 :: _ => (some (decVal p1), some (decVal p2))
  | _ => (none, none)

/-- The claim's pattern, following the spec's words: an all-digit run, one
non-digit separator character, then an all-digit run. -/
def specBPFormB (s : Str) : Bool :=
  let d1 := s.takeWhile Char.isDigit
  match s.dropWhile Char.isDigit with
  | [] => false
  | _ :: r2 =>
    let d2 := r2.takeWhile Char.isDigit
    decide (d1 ≠ []) && decide (d2 ≠ []) && decide (r2.dropWhile Char.isDigit = [])

/-! ## The record store (src/app/models/db.py)

Rows travel through the Python code as dicts (`dict(row)`, `record_data`),
so a record is modelled as an association list from column name to value,
and the SQLite `records` table as a list of such rows in rowid (insertion)
order.  SQLite storage classes are NULL, INTEGER, REAL and TEXT. -/

/-- A SQLite value. -/
inductive DBVal where
  | null
  | intv (n : Int)
  | realv (q : Rat)
  | text (s : String)
deriving DecidableEq, Repr

/-- Python truthiness of a stored value (`not record_data[field]`). -/
def DBVal.truthy : DBVal → Bool
  | .null => false
  | .intv n => n != 0
  | .realv q => q != 0
  | .text s => s != ""

/-- A record row: column name to value. -/
abbrev Rec := List (String × DBVal)

/-- The `records` table, in rowid order. -/
abbrev Store := List Rec

/-- Look a column up in a row (an absent column reads as NULL). -/
def getF (r : Rec) (k : String) : DBVal :=
  match r.find? (fun p => p.1 == k) with
  | some p => p.2
  | none => .null

/-- Set a column of a row, replacing the first binding or appending. -/
def setF : Rec → String → DBVal → Rec
  | [], k, v => [(k, v)]
  | (k', v') :: r, k, v => if k' == k then (k, v) :: r else (k', v') :: setF r k v

/-- Whether `'patient_id' in record_data and record_data['patient_id']`. -/
def pidPresent (record_data : Rec) : Bool :=
  (record_data.find? (fun p => p.1 == "patient_id")).isSome
    && (getF record_data "patient_id").truthy

/-- The next AUTOINCREMENT surrogate id (one past the largest id in use). -/
def nextId (store : Store) : Int :=
  (store.foldl (fun m r => match getF r "id" with | .intv n => max m n | _ => m) 0) + 1

/-- `get_record_by_id`: `SELECT * FROM records WHERE id = ?`, first match. -/
def get_record_by_id (store : Store) (rid : Int) : Option Rec :=
  store.find? (fun r => getF r "id" == .intv rid)

/-- `get_record_by_patient_id`. -/
def get_record_by_patient_id (store : Store) (pid : String) : Option Rec :=
  store.find? (fun r => getF r "patient_id" == .text pid)

/-- Store-level failures surfaced by the model. -/
inductive DBError where
  | integrityError
deriving DecidableEq, Repr

/-- `create_record`: generate `patient_id` when missing or falsy, stamp
`created_at`/`updated_at` with the current time, then INSERT.  The UNIQUE
constraint on `patient_id` makes the INSERT raise `sqlite3.IntegrityError`
on a duplicate; `create_record` rolls back and re-raises, so the store is
unchanged.  `genId` stands for the random `generate_patient_id()` result,
`now` for `datetime.now()` formatted. -/
def create_record (genId now : String) (record_data : Rec) (store : Store) :
    Except DBError Rec × Store :=
  let data1 := if pidPresent record_data then record_data
               else setF record_data "patient_id" (.text genId)
  let data2 := setF (setF data1 "created_at" (.text now)) "updated_at" (.text now)
  let pid := getF data2 "patient_id"
  if store.any (fun r => getF r "patient_id" == pid && pid != DBVal.null) then
    (.error .integrityError, store)
  else
    let newRec := setF data2 "id" (.intv (nextId store))
    (.ok newRec, store ++ [newRec])

/-- Apply an UPDATE's SET clause to a row. -/
def applyUpd (r : Rec) (upd : Rec) : Rec :=
  upd.foldl (fun acc p => setF acc p.1 p.2) r

/-- `update_record`: with an empty `update_data` it returns
`get_record_by_id(record_id)` without touching the database; otherwise it
stamps `updated_at` and applies the SET clause to the rows whose id
matches, returning the stored row afterwards. -/
def update_record (now : String) (rid : Int) (update_data : Rec) (store : Store) :
    Option Rec × Store :=
  if update_data.isEmpty then
    (get_record_by_id store rid, store)
  else
    let upd := setF update_data "updated_at" (.text now)
    let store' := store.map (fun r => if getF r "id" == .intv rid then applyUpd r upd else r)
    (get_record_by_id store' rid, store')

/-- `delete_record`: `DELETE FROM records WHERE id = ?`, returning
`cursor.rowcount > 0`. -/
def delete_record (rid : Int) (store : Store) : Bool × Store :=
  (store.any (fun r => getF r "id" == .intv rid),
   store.filter (fun r => !(getF r "id" == .intv rid)))

/-- `INSERT OR REPLACE INTO records ...` as issued by the Excel importer:
a row whose (non-null) `patient_id` collides with an existing row replaces
that row; the fresh row is appended with a fresh rowid. -/
def insert_or_replace (newRec : Rec) (store : Store) : Store :=
  let pid := getF newRec "patient_id"
  let rest := store.filter (fun r => !(getF r "patient_id" == pid && pid != DBVal.null))
  rest ++ [setF newRec "id" (.intv (nextId store))]

/-! ## Schema migration (src/migrations/run_migration.py)

`run_migration` builds a `new_records` table, copies every row of `records`
through an `INSERT INTO new_records (...) SELECT ... FROM records` whose
select list is built from the `mappings` table in the source, then drops
`records` and renames `new_records`.  All of it runs in one transaction:
the `except` clause rolls everything back and re-raises.  `old_cols` (the
column set of the existing table, read via PRAGMA) is a parameter here. -/

/-- A select-list expression of the migration's INSERT ... SELECT. -/
inductive MigExpr where
  | colRef (c : String)
  | nullE
  | litStr (s : String)
  | litInt (n : Int)
  | tempConv
deriving DecidableEq, Repr

/-- SQLite's numeric coercion of a text operand: longest numeric text value
at the start of the string, else 0. -/
def numCoerce (s : String) : Rat :=
  let l := dropLead s.data
  let signed : Rat × Str := match l with
    | '-' :: r => (-1, r)
    | '+' :: r => (1, r)
    | _ => (1, l)
  let intPart := signed.2.takeWhile Char.isDigit
  let rest := signed.2.dropWhile Char.isDigit
  let frac : Str := match rest with
    | '.' :: r => r.takeWhile Char.isDigit
    | _ => []
  signed.1 * ((decVal intPart : Rat) + (decVal frac : Rat) / ((10 : Rat) ^ frac.length))

/-- `((temperature - 32.0) * 5.0/9.0)` under SQLite arithmetic:
NULL propagates; numbers compute; text is coerced to a number. -/
def tempConvVal : DBVal → DBVal
  | .null => .null
  | .intv n => .realv (((n : Rat) - 32) * 5 / 9)
  | .realv q => .realv ((q - 32) * 5 / 9)
  | .text s => .realv ((numCoerce s - 32) * 5 / 9)

/-- Evaluate a select-list expression against a `records` row. -/
def evalExpr (row : Rec) : MigExpr → DBVal
  | .colRef c => getF row c
  | .nullE => .null
  | .litStr s => .text s
  | .litInt n => .intv n
  | .tempConv => tempConvVal (getF row "temperature")

/-- `src(col)`: the column itself when the old table has it, else None. -/
def srcCol (oldCols : List String) (c : String) : Option String :=
  if c ∈ oldCols then some c else none

/-- `expr_or_null`: a column reference when available, else NULL. -/
def expr_or_null : Option String → MigExpr
  | some c => .colRef c
  | none => .nullE

/-- The `mappings` list of run_migration.py (lines 111-182), one entry per
target column of `new_records`, in source order. -/
def mappings (oldCols : List String) (now : String) : List (String × MigExpr) :=
  [ ("id", expr_or_null (srcCol oldCols "id")),
    ("patient_id", expr_or_null (srcCol oldCols "patient_id")),
    ("full_name", expr_or_null (srcCol oldCols "full_name")),
    ("date_of_birth", expr_or_null (srcCol oldCols "date_of_birth")),
    ("age", expr_or_null (srcCol oldCols "age")),
    ("gender", expr_or_null (srcCol oldCols "gender")),
    ("grade_level", expr_or_null (srcCol oldCols "grade_level")),
    ("parent_primary_name", expr_or_null (srcCol oldCols "parent_primary_name")),
    ("parent_primary_phone", expr_or_null (srcCol oldCols "parent_primary_phone")),
    ("emergency_contact_name", expr_or_null (srcCol oldCols "emergency_contact_name")),
    ("emergency_contact_phone", expr_or_null (srcCol oldCols "emergency_contact_phone")),
    ("academic_year", expr_or_null (srcCol oldCols "academic_year")),
    ("academic_term", expr_or_null (srcCol oldCols "academic_term")),
    ("date_of_visit", expr_or_null (srcCol oldCols "date_of_visit")),
    ("time_of_visit", expr_or_null (srcCol oldCols "time_of_visit")),
    ("brought_in_by", expr_or_null (srcCol oldCols "brought_in_by")),
    ("nurse_name", expr_or_null (srcCol oldCols "nurse_name")),
    ("visit_reason_category",
      if "visit_reason_category" ∈ oldCols then MigExpr.colRef "visit_reason_category"
      else if "visit_reason" ∈ oldCols then MigExpr.colRef "visit_reason"
      else MigExpr.nullE),
    ("severity_level", expr_or_null (srcCol oldCols "severity_level")),
    ("visit_details", MigExpr.nullE),
    ("temperature", if "temperature" ∈ oldCols then MigExpr.tempConv else MigExpr.nullE),
    ("heart_rate",
      if "pulse" ∈ oldCols then MigExpr.colRef "pulse"
      else if "heart_rate" ∈ oldCols then MigExpr.colRef "heart_rate"
      else MigExpr.nullE),
    ("respiratory_rate", expr_or_null (srcCol oldCols "respiratory_rate")),
    ("oxygen_saturation", expr_or_null (srcCol oldCols "oxygen_saturation")),
    ("blood_pressure_systolic", MigExpr.nullE),
    ("blood_pressure_diastolic", MigExpr.nullE),
    ("height", expr_or_null (srcCol oldCols "height")),
    ("weight", expr_or_null (srcCol oldCols "weight")),
    ("bmi", expr_or_null (srcCol oldCols "bmi")),
    ("pain_scale",
      if "pain_scale" ∈ oldCols then MigExpr.colRef "pain_scale"
      else if "pain_level" ∈ oldCols then MigExpr.colRef "pain_level"
      else MigExpr.nullE),
    ("pain_location", expr_or_null (srcCol oldCols "pain_location")),
    ("presenting_complaints", expr_or_null (srcCol oldCols "presenting_complaints")),
    ("other_complaint_details", expr_or_null (srcCol oldCols "other_complaint_details")),
    ("complaint_background", expr_or_null (srcCol oldCols "complaint_background")),
    ("past_medical_history", expr_or_null (srcCol oldCols "past_medical_history")),
    ("known_allergies", expr_or_null (srcCol oldCols "known_allergies")),
    ("current_medications", expr_or_null (srcCol oldCols "current_medications")),
    ("special_medical_needs",
      if "special_medical_needs" ∈ oldCols then MigExpr.colRef "special_medical_needs"
      else if "special_needs_flag" ∈ oldCols then MigExpr.colRef "special_needs_flag"
      else MigExpr.litInt 0),
    ("chronic_conditions", expr_or_null (srcCol oldCols "chronic_conditions")),
    ("nurse_observations", expr_or_null (srcCol oldCols "nurse_observations")),
    ("interventions_provided", expr_or_null (srcCol oldCols "interventions_provided")),
    ("medications_administered", expr_or_null (srcCol oldCols "medications_administered")),
    ("next_steps", expr_or_null (srcCol oldCols "next_steps")),
    ("other_next_step_details", expr_or_null (srcCol oldCols "other_next_step_details")),
    ("referral_type", expr_or_null (srcCol oldCols "referral_type")),
    ("follow_up_date", expr_or_null (srcCol oldCols "follow_up_date")),
    ("admission_date", expr_or_null (srcCol oldCols "admission_date")),
    ("admission_time", expr_or_null (srcCol oldCols "admission_time")),
    ("condition_on_admission", expr_or_null (srcCol oldCols "condition_on_admission")),
    ("plan_of_care", expr_or_null (srcCol oldCols "plan_of_care")),
    ("discharge_time", expr_or_null (srcCol oldCols "discharge_time")),
    ("condition_at_discharge", expr_or_null (srcCol oldCols "condition_at_discharge")),
    ("discharge_instructions", expr_or_null (srcCol oldCols "discharge_instructions")),
    ("return_to_class_time", expr_or_null (srcCol oldCols "return_to_class_time")),
    ("parent_notified", expr_or_null (srcCol oldCols "parent_notified")),
    ("parent_notification_time", expr_or_null (srcCol oldCols "parent_notification_time")),
    ("incident_report_required", expr_or_null (srcCol oldCols "incident_report_required")),
    ("notes", expr_or_null (srcCol oldCols "notes")),
    ("created_at", expr_or_null (srcCol oldCols "created_at")),
    ("updated_at", MigExpr.litStr now) ]

/-- One row of the INSERT ... SELECT: evaluate every select expression. -/
def migrate_row (oldCols : List String) (now : String) (row : Rec) : Rec :=
  (mappings oldCols now).map (fun p => (p.1, evalExpr row p.2))

/-- The canonical (new) schema's column set, from the CREATE TABLE in
run_migration.py / db.py. -/
def canonical_columns : List String :=
  (mappings [] "").map Prod.fst

/-- NOT NULL constraints of `new_records` that a migrated row must satisfy
(`full_name`, `date_of_visit`, `time_of_visit`, `nurse_name`). -/
def row_not_null_ok (r : Rec) : Bool :=
  getF r "full_name" != DBVal.null
    && getF r "date_of_visit" != DBVal.null
    && getF r "time_of_visit" != DBVal.null
    && getF r "nurse_name" != DBVal.null

/-- Row-level failures of the INSERT ... SELECT. -/
inductive MigError where
  | notNullViolation
  | uniqueViolation
deriving DecidableEq, Repr

/-- Insert migrated rows one at a time into `new_records`, enforcing the
NOT NULL constraints and the UNIQUE constraint on `patient_id`
(SQLite's UNIQUE admits multiple NULLs). -/
def insert_all : List Rec → Store → Except MigError Store
  | [], acc => .ok acc
  | r :: rs, acc =>
    if row_not_null_ok r = false then .error .notNullViolation
    else if acc.any (fun x =>
        getF x "patient_id" == getF r "patient_id" && getF r "patient_id" != DBVal.null) then
      .error .uniqueViolation
    else insert_all rs (acc ++ [r])

/-- The database file: the `records` table (if present) and the
`new_records` staging table (if present). -/
structure DbState where
  records : Option Store
  new_records : Option Store
deriving DecidableEq, Repr

/-- The body of `run_migration`'s try-block: create `new_records` if
needed, and either rename it into place (no `records` table) or copy every
row through the select list, then drop-and-rename. -/
def migration_txn (oldCols : List String) (now : String) (st : DbState) :
    Except MigError DbState :=
  let staged : Store := st.new_records.getD []
  match st.records with
  | none => .ok { records := some staged, new_records := none }
  | some oldRows => do
    let filled ← insert_all (oldRows.map (migrate_row oldCols now)) staged
    .ok { records := some filled, new_records := none }

/-- `run_migration`: commit the transaction on success; on any exception
roll the whole transaction back (the original store is untouched) and
re-raise. -/
def run_migration (oldCols : List String) (now : String) (st : DbState) : DbState :=
  match migration_txn oldCols now st with
  | .ok st' => st'
  | .error _ => st

/-! ## Search (src/app/models/db.py, `search_records`)

`search_records` runs
`WHERE full_name LIKE ? OR patient_id LIKE ? OR nurse_name LIKE ?` with the
pattern `'%' + term + '%'`, then
`ORDER BY date_of_visit DESC, time_of_visit DESC LIMIT ? OFFSET ?`.
SQLite's LIKE is case-insensitive on ASCII, `%` matches any sequence and
`_` any single character.  The ORDER BY is modelled as a stable descending
sort over the scan (insertion) order, with SQLite's cross-type value
ordering (NULL < numeric < text, text compared bytewise). -/

/-- Case-insensitive (ASCII) character comparison used by LIKE. -/
def lowEq (a b : Char) : Bool := a.toLower == b.toLower

/-- LIKE matching with explicit fuel (structural recursion; the wrapper
`likeM` supplies adequate fuel). -/
def likeMF : Nat → Str → Str → Bool
  | 0, _, _ => false
  | _ + 1, [], [] => true
  | _ + 1, [], _ :: _ => false
  | fuel + 1, a :: ps, [] =>
    if a = '%' then likeMF fuel ps [] else false
  | fuel + 1, a :: ps, c :: s' =>
    if a = '%' then likeMF fuel ps (c :: s') || likeMF fuel (a :: ps) s'
    else if a = '_' then likeMF fuel ps s'
    else lowEq a c && likeMF fuel ps s'

/-- `like(pattern, subject)`. -/
def likeM (p s : Str) : Bool := likeMF (p.length + s.length + 1) p s

/-- The LIKE pattern `'%' + search_term + '%'`. -/
def likePattern (term : String) : Str := '%' :: (term.data ++ ['%'])

/-- Decimal rendering of a rational whose denominator divides a power of
ten, in the style both Python's `str(float)` and SQLite's REAL-to-TEXT
coercion produce for such values ("37.0", "37.5", "0.05").  Rationals
outside that range (which the embedded data never produces) fall back to a
fraction rendering. -/
def ratDecText (q : Rat) : String :=
  match (List.range 31).find? (fun k => (10 ^ k) % q.den == 0) with
  | some k =>
      let scaled : Nat := q.num.natAbs * ((10 ^ k) / q.den)
      let ip := scaled / 10 ^ k
      let fp := scaled % 10 ^ k
      let sign := if q.num < 0 then "-" else ""
      let ds := Nat.repr fp
      let fracDigits := String.mk (List.replicate (k - ds.length) '0') ++ ds
      if k = 0 then sign ++ Nat.repr ip ++ ".0"
      else sign ++ Nat.repr ip ++ "." ++ fracDigits
  | none => Int.repr q.num ++ "/" ++ Nat.repr q.den

/-- The text a stored value presents to LIKE (SQLite coerces the column
value to text; NULL never matches). -/
def likeSubject : DBVal → Option Str
  | .null => none
  | .text s => some s.data
  | .intv n => some (Int.repr n).data
  | .realv q => some (ratDecText q).data

/-- The WHERE clause of `search_records`: LIKE against full name,
patient id and nurse name. -/
def rowMatches (term : String) (r : Rec) : Bool :=
  [getF r "full_name", getF r "patient_id", getF r "nurse_name"].any fun v =>
    match likeSubject v with
    | none => false
    | some s => likeM (likePattern term) s

/-- Case-insensitive leading match (the needle starts the haystack). -/
def leadCI : Str → Str → Bool
  | [], _ => true
  | _ :: _, [] => false
  | a :: as, c :: cs => lowEq a c && leadCI as cs

/-- Case-insensitive substring containment, the spec's notion of
"contains the term as a case-insensitive substring". -/
def hasRunCI : Str → Str → Bool
  | t, [] => leadCI t []
  | t, c :: s' => leadCI t (c :: s') || hasRunCI t s'

/-- The claim's matching predicate: the term occurs as a case-insensitive
substring of the full name, the patient id or the nurse name. -/
def specMatch (term : String) (r : Rec) : Bool :=
  [getF r "full_name", getF r "patient_id", getF r "nurse_name"].any fun v =>
    match likeSubject v with
    | none => false
    | some s => hasRunCI term.data s

/-- Bytewise (codepoint) string order, SQLite's BINARY collation. -/
def strLe : Str → Str → Bool
  | [], _ => true
  | _ :: _, [] => false
  | a :: as, b :: bs =>
    if a.toNat < b.toNat then true
    else if b.toNat < a.toNat then false
    else strLe as bs

/-- SQLite cross-type value ordering: NULL < numeric < text. -/
def valLe : DBVal → DBVal → Bool
  | .null, _ => true
  | _, .null => false
  | .intv a, .intv b => decide (a ≤ b)
  | .intv a, .realv b => decide ((a : Rat) ≤ b)
  | .realv a, .intv b => decide (a ≤ (b : Rat))
  | .realv a, .realv b => decide (a ≤ b)
  | .intv _, .text _ => true
  | .realv _, .text _ => true
  | .text _, .intv _ => false
  | .text _, .realv _ => false
  | .text a, .text b => strLe a.data b.data

/-- Strictly-less on values. -/
def valLt (a b : DBVal) : Bool := !(valLe b a)

/-- The ORDER BY key of a row. -/
def keyOf (r : Rec) : DBVal × DBVal :=
  (getF r "date_of_visit", getF r "time_of_visit")

/-- Lexicographic order on (date, time) keys. -/
def keyLe (a b : DBVal × DBVal) : Bool :=
  if valLt a.1 b.1 then true
  else if valLt b.1 a.1 then false
  else valLe a.2 b.2

/-- ORDER-BY equivalence of keys (ties). -/
def keyEq (a b : DBVal × DBVal) : Bool := keyLe a b && keyLe b a

/-- Stable descending insertion: a row scanned later is placed after every
earlier row whose key is not strictly smaller. -/
def insDesc (x : Rec) : Store → Store
  | [] => [x]
  | y :: ys => if keyLe (keyOf x) (keyOf y) then y :: insDesc x ys else x :: y :: ys

/-- `ORDER BY date_of_visit DESC, time_of_visit DESC` as a stable
descending sort in scan order. -/
def sortDesc (l : Store) : Store := l.foldl (fun acc x => insDesc x acc) []

/-- `search_records(search_term, page, per_page)`: filter, order, paginate;
returns the page items and the total match count. -/
def search_records (term : String) (page per_page : Nat) (store : Store) :
    Store × Nat :=
  let matched := store.filter (rowMatches term)
  ((sortDesc matched).drop ((page - 1) * per_page) |>.take per_page, matched.length)

/-! ## Web Excel import (src/app/controllers/main.py, `import_from_excel`)

The uploaded sheet is read into a DataFrame; headers are normalised
(`strip().lower().replace(' ', '_')`) and matched against the `db_columns`
keys by two-way substring containment (first match wins, later sheet
columns overwrite earlier assignments).  Each data row is then converted
and inserted with INSERT OR REPLACE; a row whose visit date cannot be
parsed is counted as an error and skipped, while an unparsable visit time
falls back to "00:00".

Cells are modelled as `Option String` (NaN/absent is `none`): the exports
this importer reads write every cell as text, and pandas reads empty cells
as NaN.  `pd.to_datetime` is modelled on the `YYYY-MM-DD` vocabulary this
pipeline produces; other pandas-accepted date formats are outside the
embedding. -/

/-- A spreadsheet cell as pandas presents it: NaN/absent or a string. -/
abbrev Cell := Option String

/-- A data row of the uploaded sheet: sheet column name to cell. -/
abbrev DfRow := List (String × Cell)

/-- Row access `row[col]` (an unmapped column reads as NaN). -/
def rowGet (row : DfRow) (col : String) : Cell :=
  match row.find? (fun p => p.1 == col) with
  | some p => p.2
  | none => none

/-- Python `str(cell)`: the float NaN prints as "nan". -/
def cellStr : Cell → String
  | none => "nan"
  | some s => s

/-- `pd.notna`. -/
def notna : Cell → Bool
  | none => false
  | some _ => true

/-- Days in a Gregorian month. -/
def daysInMonth (y m : Nat) : Nat :=
  if m = 2 then (if (y % 4 = 0 && y % 100 != 0) || y % 400 = 0 then 29 else 28)
  else if m = 4 || m = 6 || m = 9 || m = 11 then 30 else 31

/-- Strict `YYYY-MM-DD` parsing (the `%Y-%m-%d` vocabulary with calendar
validation), modelling `pd.to_datetime` / `strptime` on the dates this
pipeline produces. -/
def parseYMD (s : Str) : Option (Nat × Nat × Nat) :=
  match s with
  | [a, b, c, d, s1, e, f, s2, g, h] =>
    if a.isDigit && b.isDigit && c.isDigit && d.isDigit && s1 == '-'
        && e.isDigit && f.isDigit && s2 == '-' && g.isDigit && h.isDigit then
      let y := decVal [a, b, c, d]
      let m := decVal [e, f]
      let dd := decVal [g, h]
      if 1 ≤ m && m ≤ 12 && 1 ≤ dd && dd ≤ daysInMonth y m then some (y, m, dd)
      else none
    else none
  | _ => none

/-- `pd.to_datetime(cell)` followed by `strftime` (NaN gives NaT, whose
`strftime` raises — a failure). -/
def pdDate (c : Cell) : Option (Nat × Nat × Nat) :=
  match c with
  | none => none
  | some s => parseYMD s.data

/-- Left-pad a numeral to two digits. -/
def pad2 (n : Nat) : String :=
  if n < 10 then "0" ++ Nat.repr n else Nat.repr n

/-- Left-pad a numeral to four digits. -/
def pad4 (n : Nat) : String :=
  if n < 10 then "000" ++ Nat.repr n
  else if n < 100 then "00" ++ Nat.repr n
  else if n < 1000 then "0" ++ Nat.repr n
  else Nat.repr n

/-- `strftime('%Y-%m-%d')`. -/
def fmtYMD : Nat × Nat × Nat → String
  | (y, m, d) => pad4 y ++ "-" ++ pad2 m ++ "-" ++ pad2 d

/-- Python `str.split(sep)`. -/
def splitSep (sep : Char) : Str → List Str
  | [] => [[]]
  | c :: cs =>
    if c == sep then [] :: splitSep sep cs
    else match splitSep sep cs with
      | g :: gs => (c :: g) :: gs
      | [] => [[c]]

/-- Python `str.zfill(2)`. -/
def zfill2 (s : Str) : Str :=
  if s.length < 2 then List.replicate (2 - s.length) '0' ++ s else s

/-- The visit-time conversion of `import_from_excel`: a string cell is
stripped and split on ':', the first two parts are zero-filled; anything
else (including NaN, and strings without a ':') becomes "00:00". -/
def timeOfVisitStr (t : Cell) : String :=
  match t with
  | some s =>
    match splitSep ':' (trimStr s.data) with
    | p0 :: p1 :: _ => String.mk (zfill2 p0) ++ ":" ++ String.mk (zfill2 p1)
    | _ => "00:00"
  | none => "00:00"

/-- Python `int(string)`: optional sign and decimal digits, whitespace
stripped; anything else raises. -/
def pyIntParse (s : String) : Option Int :=
  let l := trimStr s.data
  let signed : Int × Str := match l with
    | '-' :: r => (-1, r)
    | '+' :: r => (1, r)
    | _ => (1, l)
  if signed.2 ≠ [] ∧ signed.2.all Char.isDigit then
    some (signed.1 * decVal signed.2)
  else none

/-- Python `float(string)` on the decimal vocabulary this pipeline
produces: optional sign, digits, optional fraction. -/
def pyFloatParse (s : String) : Option Rat :=
  let l := trimStr s.data
  let signed : Rat × Str := match l with
    | '-' :: r => (-1, r)
    | '+' :: r => (1, r)
    | _ => (1, l)
  let ip := signed.2.takeWhile Char.isDigit
  match signed.2.dropWhile Char.isDigit with
  | [] => if ip ≠ [] then some (signed.1 * (decVal ip : Rat)) else none
  | '.' :: fr =>
    if fr.all Char.isDigit ∧ (ip ≠ [] ∨ fr ≠ []) then
      some (signed.1 * ((decVal ip : Rat) + (decVal fr : Rat) / ((10 : Rat) ^ fr.length)))
    else none
  | _ => none

/-- The four required sheet columns (the import aborts earlier when any of
them is unmapped). -/
structure ReqCols where
  full_name : String
  date_of_visit : String
  time_of_visit : String
  nurse_name : String
deriving Repr

/-- Row-level outcomes of the import loop's try-block. -/
inductive RowErr where
  | invalidDateFormat
  | rowError
deriving DecidableEq, Repr

/-- `str(raw)` for an optional text column guarded by `pd.notna`. -/
def optStrCol (cols : String → Option String) (row : DfRow) (field : String) :
    Option String :=
  match cols field with
  | none => none
  | some c => match rowGet row c with
    | some s => some s
    | none => none

/-- An optional value as a stored column value. -/
def optTextV : Option String → DBVal
  | none => .null
  | some s => .text s

/-- An optional integer as a stored column value. -/
def optIntV : Option Int → DBVal
  | none => .null
  | some n => .intv n

/-- An optional digit-run value as a stored column value. -/
def optNatV : Option Nat → DBVal
  | none => .null
  | some n => .intv n

/-- An optional float as a stored column value. -/
def optRealV : Option Rat → DBVal
  | none => .null
  | some q => .realv q

/-- One iteration of the import loop (lines 370-465): build the record that
the INSERT OR REPLACE receives, or fail the row.  An unparsable visit date
fails the row with "Invalid date format"; an unparsable `age` or
`temperature` raises and fails the row; an unparsable heart rate or time
of visit is silently defaulted (to NULL and "00:00"). -/
def processRow (req : ReqCols) (cols : String → Option String) (row : DfRow)
    (genId now : String) : Except RowErr Rec := do
  let pid : String :=
    match cols "patient_id" with
    | none => genId
    | some c =>
      let s := String.mk (trimStr (cellStr (rowGet row c)).data)
      if s == "" then genId else s
  let dob : Option String :=
    match cols "date_of_birth" with
    | none => none
    | some c => (pdDate (rowGet row c)).map fmtYMD
  match pdDate (rowGet row req.date_of_visit) with
  | none => .error .invalidDateFormat
  | some dv => do
    let date_of_visit := fmtYMD dv
    let time_of_visit := timeOfVisitStr (rowGet row req.time_of_visit)
    let full_name := String.mk (trimStr (cellStr (rowGet row req.full_name)).data)
    let age : Option Int ←
      match cols "age" with
      | none => pure none
      | some c =>
        if notna (rowGet row c) then
          match pyIntParse (cellStr (rowGet row c)) with
          | some n => pure (some n)
          | none => .error .rowError
        else pure none
    let gender := optStrCol cols row "gender"
    let grade_level := optStrCol cols row "grade_level"
    let nurse_name := String.mk (trimStr (cellStr (rowGet row req.nurse_name)).data)
    let visit_reason : Option String :=
      match cols "visit_reason_category" with
      | some c =>
        if notna (rowGet row c) then some (cellStr (rowGet row c))
        else match cols "visit_reason" with
          | some c' => if notna (rowGet row c') then some (cellStr (rowGet row c')) else none
          | none => none
      | none =>
        match cols "visit_reason" with
        | some c' => if notna (rowGet row c') then some (cellStr (rowGet row c')) else none
        | none => none
    let visit_details := optStrCol cols row "visit_details"
    let temperature : Option Rat ←
      match cols "temperature" with
      | none => pure none
      | some c =>
        if notna (rowGet row c) then
          match pyFloatParse (cellStr (rowGet row c)) with
          | some q => pure (some q)
          | none => .error .rowError
        else pure none
    let hr0 : Option Int :=
      match cols "heart_rate" with
      | none => none
      | some c =>
        if notna (rowGet row c) then pyIntParse (cellStr (rowGet row c)) else none
    let hr : Option Int :=
      match hr0 with
      | some v => some v
      | none =>
        match cols "pulse" with
        | none => none
        | some c =>
          if notna (rowGet row c) then pyIntParse (cellStr (rowGet row c)) else none
    let bp : Option Nat × Option Nat :=
      match cols "blood_pressure" with
      | none => (none, none)
      | some c =>
        if notna (rowGet row c) then bpParse (cellStr (rowGet row c)).data
        else (none, none)
    let notes := optStrCol cols row "notes"
    .ok [("patient_id", .text pid), ("full_name", .text full_name),
         ("date_of_birth", optTextV dob), ("age", optIntV age),
         ("gender", optTextV gender), ("grade_level", optTextV grade_level),
         ("date_of_visit", .text date_of_visit), ("time_of_visit", .text time_of_visit),
         ("nurse_name", .text nurse_name), ("visit_reason_category", optTextV visit_reason),
         ("visit_details", optTextV visit_details), ("temperature", optRealV temperature),
         ("heart_rate", optIntV hr), ("blood_pressure_systolic", optNatV bp.1),
         ("blood_pressure_diastolic", optNatV bp.2), ("notes", optTextV notes),
         ("created_at", .text now)]

/-- Apply one processed row to the store: a successful row is written with
INSERT OR REPLACE, a failed row is only counted and skipped. -/
def import_apply (res : Except RowErr Rec) (store : Store) : Store :=
  match res with
  | .ok r => insert_or_replace r store
  | .error _ => store

/-! ## Spreadsheet export (src/app/utils/excel_utils.py) and the round trip

`export_records_to_excel` writes one row per record under the fixed header
list, mapping each header to a record field by normalising the header and
applying explicit overrides; `Visit Reason Category` falls back to the
legacy field and `Blood Pressure (mmHg)` re-combines the split values.
The web importer reads this sheet back through its own header matching. -/

/-- The export header list (`get_excel_headers`). -/
def get_excel_headers : List String :=
  ["Patient ID",
   "Full Name", "Date of Birth", "Age", "Gender", "Grade/Year Level",
   "Parent/Guardian Name", "Parent/Guardian Phone",
   "Emergency Contact Name", "Emergency Contact Phone",
   "Academic Year", "Academic Term", "Date of Visit", "Time of Visit",
   "Brought In By", "Nurse Name", "Visit Reason Category", "Severity Level",
   "Visit Details",
   "Temperature (°C)", "Pulse (bpm)", "Respiratory Rate (cpm)",
   "Oxygen Saturation (%)", "Blood Pressure (mmHg)",
   "Presenting Complaint(s)", "Other Complaint Details", "Complaint Background",
   "Past Medical History", "Known Allergies", "Current Medications",
   "Special Medical Needs", "Chronic Conditions",
   "Nurse Observations", "Interventions Provided", "Medications Administered",
   "Next Step(s)", "Other Next Step Details", "Referral Type", "Follow-up Date",
   "Admission Date", "Admission Time", "Condition on Admission", "Plan of Care",
   "Discharge Time", "Condition at Discharge", "Discharge Instructions",
   "Return to Class Time", "Parent Notified", "Parent Notification Time",
   "Incident Report Required",
   "Notes", "Created At", "Updated At"]

/-- `format_value_for_excel` on stored values (dates and times are stored
as text; booleans as integers): None renders as the empty cell. -/
def format_value_for_excel : DBVal → String
  | .null => ""
  | .text s => s
  | .intv n => Int.repr n
  | .realv q => ratDecText q

/-- Python f-string interpolation of a stored value. -/
def pyFStr : DBVal → String
  | .null => "None"
  | .text s => s
  | .intv n => Int.repr n
  | .realv q => ratDecText q

/-- Header normalisation on export: `header.lower().strip().replace(' ', '_')`. -/
def normHeaderExport (h : String) : String :=
  String.mk ((trimStr (lowStr h.data)).map (fun c => if c = ' ' then '_' else c))

/-- The export's header-to-field mapping (default normalisation plus the
explicit special cases). -/
def exportFieldName (h : String) : String :=
  if h = "Parent/Guardian Name" then "parent_primary_name"
  else if h = "Parent/Guardian Phone" then "parent_primary_phone"
  else if h = "Emergency Contact Name" then "emergency_contact_name"
  else if h = "Emergency Contact Phone" then "emergency_contact_phone"
  else if h = "Grade/Year Level" then "grade_level"
  else if h = "Temperature (°C)" then "temperature"
  else if h = "Pulse (bpm)" then "heart_rate"
  else if h = "Respiratory Rate (cpm)" then "respiratory_rate"
  else if h = "Oxygen Saturation (%)" then "oxygen_saturation"
  else if h = "Visit Details" then "visit_details"
  else if h = "Special Medical Needs" then "special_medical_needs"
  else if h = "Next Step(s)" then "next_steps"
  else if h = "Parent Notified" then "parent_notified"
  else if h = "Incident Report Required" then "incident_report_required"
  else if h = "Return to Class Time" then "return_to_class_time"
  else if h = "Brought In By" then "brought_in_by"
  else normHeaderExport h

/-- Python `a or b` on stored values. -/
def pyOrV (a b : DBVal) : DBVal := if a.truthy then a else b

/-- One cell of the exported row for a given header. -/
def exportCell (r : Rec) (h : String) : String :=
  if h = "Visit Reason Category" then
    format_value_for_excel (pyOrV (getF r "visit_reason_category") (getF r "visit_reason"))
  else if h = "Blood Pressure (mmHg)" then
    (let sysv := getF r "blood_pressure_systolic"
     let diav := getF r "blood_pressure_diastolic"
     if sysv ≠ DBVal.null ∧ diav ≠ DBVal.null then pyFStr sysv ++ "/" ++ pyFStr diav
     else format_value_for_excel (getF r "blood_pressure"))
  else format_value_for_excel (getF r (exportFieldName h))

/-- One exported row: a cell per header. -/
def export_row (r : Rec) : List (String × String) :=
  get_excel_headers.map (fun h => (h, exportCell r h))

/-- Reading the written sheet back with pandas: empty cells are NaN. -/
def toDfRow (cells : List (String × String)) : DfRow :=
  cells.map (fun p => (p.1, if p.2 = "" then none else some p.2))

/-- The `db_columns` keys of the web importer, in dict order. -/
def db_columns_keys : List String :=
  ["patient_id", "full_name", "date_of_birth", "age", "gender", "grade_level",
   "date_of_visit", "time_of_visit", "nurse_name", "visit_reason",
   "visit_reason_category", "visit_details", "temperature", "pulse", "heart_rate",
   "blood_pressure", "notes"]

/-- Header normalisation on import: `str(col).strip().lower().replace(' ', '_')`. -/
def normHeaderImport (c : String) : String :=
  String.mk (((trimStr c.data).map Char.toLower).map (fun ch => if ch = ' ' then '_' else ch))

/-- Assignment into a string-valued assoc list. -/
def setStr : List (String × String) → String → String → List (String × String)
  | [], k, v => [(k, v)]
  | (k', v') :: r, k, v => if k' == k then (k, v) :: r else (k', v') :: setStr r k v

/-- The importer's column-matching loop: for each sheet column, the first
`db_columns` key related to it by two-way substring containment receives
the column (later sheet columns overwrite earlier assignments). -/
def buildMapping (dfCols : List String) : List (String × String) :=
  dfCols.foldl (fun acc col =>
    match db_columns_keys.find? (fun dbc =>
        hasSeq dbc.data (normHeaderImport col).data
          || hasSeq (normHeaderImport col).data dbc.data) with
    | some dbc => setStr acc dbc col
    | none => acc) []

/-- Look a db field's sheet column up in the built mapping. -/
def mappingFun (m : List (String × String)) (f : String) : Option String :=
  match m.find? (fun p => p.1 == f) with
  | some p => some p.2
  | none => none

/-- Export one record and re-import it through the web importer's mapping
and row conversion. -/
def web_round_trip (r : Rec) (genId now : String) : Except RowErr Rec :=
  let m := buildMapping get_excel_headers
  processRow ⟨(mappingFun m "full_name").getD "", (mappingFun m "date_of_visit").getD "",
      (mappingFun m "time_of_visit").getD "", (mappingFun m "nurse_name").getD ""⟩
    (mappingFun m) (toDfRow (export_row r)) genId now

/-- A canonical record with the given field values (other columns null). -/
def canonRecV (pid fn dob age gender dv tv nn vrc vd temp hr sys dia notes : DBVal) :
    Rec :=
  [("id", DBVal.intv 1), ("patient_id", pid), ("full_name", fn),
   ("date_of_birth", dob), ("age", age), ("gender", gender),
   ("grade_level", DBVal.null), ("date_of_visit", dv), ("time_of_visit", tv),
   ("nurse_name", nn), ("visit_reason_category", vrc), ("visit_details", vd),
   ("temperature", temp), ("heart_rate", hr), ("blood_pressure_systolic", sys),
   ("blood_pressure_diastolic", dia), ("notes", notes)]

/-- The column mapping the importer builds from the export's own headers
(computed by `buildMapping get_excel_headers`): `grade_level`,
`visit_reason_category` and `heart_rate` receive no sheet column, while
`visit_reason` and `pulse` receive the category and pulse columns. -/
def importMapping : List (String × String) :=
  [("patient_id", "Patient ID"), ("full_name", "Full Name"),
   ("date_of_birth", "Date of Birth"), ("age", "Age"), ("gender", "Gender"),
   ("date_of_visit", "Date of Visit"), ("time_of_visit", "Time of Visit"),
   ("nurse_name", "Nurse Name"), ("visit_reason", "Visit Reason Category"),
   ("visit_details", "Visit Details"), ("temperature", "Temperature (°C)"),
   ("pulse", "Pulse (bpm)"), ("blood_pressure", "Blood Pressure (mmHg)"),
   ("notes", "Notes")]

/-- A fully-populated canonical record whose grade level is "5". -/
def gradeRec : Rec :=
  [("id", .intv 1), ("patient_id", .text "P1"), ("full_name", .text "Alice Smith"),
   ("date_of_birth", .text "2010-05-01"), ("age", .intv 14), ("gender", .text "F"),
   ("grade_level", .text "5"), ("date_of_visit", .text "2024-03-01"),
   ("time_of_visit", .text "09:00"), ("nurse_name", .text "Nurse Joy"),
   ("visit_reason_category", .text "Illness"), ("visit_details", .text "flu"),
   ("temperature", .realv 37), ("heart_rate", .intv 70),
   ("blood_pressure_systolic", .intv 120), ("blood_pressure_diastolic", .intv 80),
   ("notes", .text "ok")]

/-! ## Enhanced batch tool (src/excel_batch_operations_enhanced.py)

`validate_record` collects per-field error messages; `add_record` refuses
to write anything when validation fails.  Record values arrive as Python
values (from an eval'd dict). -/

/-- A Python value as the CLI passes it around. -/
inductive PyVal where
  | pnone
  | pstr (s : String)
  | pint (n : Int)
  | pfloat (q : Rat)
  | pbool (b : Bool)
deriving DecidableEq, Repr

/-- Python truthiness. -/
def PyVal.truthy : PyVal → Bool
  | .pnone => false
  | .pstr s => s != ""
  | .pint n => n != 0
  | .pfloat q => q != 0
  | .pbool b => b

/-- Python `str(value)`. -/
def pyStr : PyVal → String
  | .pnone => "None"
  | .pstr s => s
  | .pint n => Int.repr n
  | .pfloat q => ratDecText q
  | .pbool b => if b then "True" else "False"

/-- The record dict of the batch tool. -/
abbrev PyRec := List (String × PyVal)

/-- Dict lookup. -/
def lookupPy (d : PyRec) (k : String) : Option PyVal :=
  match d.find? (fun p => p.1 == k) with
  | some p => some p.2
  | none => none

/-- Dict assignment. -/
def setPy : PyRec → String → PyVal → PyRec
  | [], k, v => [(k, v)]
  | (k', v') :: r, k, v => if k' == k then (k, v) :: r else (k', v') :: setPy r k v

/-- `field in record_data and record_data[field]`. -/
def presentTruthy (d : PyRec) (f : String) : Bool :=
  match lookupPy d f with
  | some v => v.truthy
  | none => false

/-- The column headers of the batch tool's sheet. -/
def COLUMN_HEADERS : List String :=
  ["Patient ID", "Full Name", "Date of Birth", "Age", "Gender", "Grade/Year Level",
   "House/Section", "Parent/Guardian Primary Contact Name",
   "Parent/Guardian Primary Contact Number", "Parent/Guardian Secondary Contact Name",
   "Parent/Guardian Secondary Contact Number", "Emergency Contact Name",
   "Emergency Contact Number", "Student's Class/Homeroom Teacher", "Academic Year",
   "Academic Term", "Date of Visit", "Time of Visit", "Brought in by", "Nurse Name/ID",
   "Visit Reason Category", "Severity Level", "Temperature (°C)", "Pulse (bpm)",
   "Respiratory rate (cpm)", "Oxygen saturation (%)", "Blood pressure (mmHg)",
   "Presenting Complaint(s)", "Other Complaint Details",
   "Background to Presenting Complaint(s)", "Past Medical History", "Known Allergies",
   "Current Medications", "Special Medical Needs Flag", "Chronic Conditions Alert",
   "Nurse Observations", "Interventions Provided",
   "Medications Administered (during visit)", "Next Step(s)", "Other Next Step Details",
   "Referral Type", "Follow-up Date", "Date of Admission (Sick Bay)",
   "Time of Admission (Sick Bay)", "Student's Condition on Admission (Sick Bay)",
   "Plan of Care (Sick Bay)", "Time of Discharge", "Student's Condition at Discharge",
   "Discharge Instructions", "Return to Class Time", "Parent Notification (Yes/No)",
   "Parent Notification Time", "Incident Report Required (Yes/No)", "Notes/Comments"]

/-- Fields validated as dates. -/
def DATE_FIELDS : List String :=
  ["Date of Birth", "Date of Visit", "Follow-up Date", "Date of Admission (Sick Bay)"]

/-- Fields validated as times. -/
def TIME_FIELDS : List String :=
  ["Time of Visit", "Time of Admission (Sick Bay)", "Time of Discharge",
   "Return to Class Time", "Parent Notification Time"]

/-- Fields validated as numbers. -/
def NUMERIC_FIELDS : List String :=
  ["Age", "Parent/Guardian Primary Contact Number",
   "Parent/Guardian Secondary Contact Number", "Emergency Contact Number",
   "Temperature (°C)", "Pulse (bpm)", "Respiratory rate (cpm)", "Oxygen saturation (%)"]

/-- Fields coerced to booleans on write. -/
def BOOLEAN_FIELDS : List String :=
  ["Special Medical Needs Flag", "Chronic Conditions Alert",
   "Parent Notification (Yes/No)", "Incident Report Required (Yes/No)"]

/-- The required fields of the batch tool. -/
def REQUIRED_FIELDS : List String :=
  ["Full Name", "Date of Visit", "Time of Visit", "Nurse Name/ID"]

/-- `str(value).split(' ')[0]`. -/
def firstWord (s : String) : Str := s.data.takeWhile (fun c => c != ' ')

/-- `datetime.strptime(s, "%Y-%m-%d")` (1-4 digit year, 1-2 digit
month/day, calendar-checked). -/
def strpYMD (s : Str) : Option (Nat × Nat × Nat) :=
  match splitSep '-' s with
  | [ys, ms, ds] =>
    if !ys.isEmpty && decide (ys.length ≤ 4) && ys.all Char.isDigit
        && !ms.isEmpty && decide (ms.length ≤ 2) && ms.all Char.isDigit
        && !ds.isEmpty && decide (ds.length ≤ 2) && ds.all Char.isDigit then
      let y := decVal ys
      let m := decVal ms
      let dd := decVal ds
      if 1 ≤ m && m ≤ 12 && 1 ≤ dd && dd ≤ daysInMonth y m then some (y, m, dd)
      else none
    else none
  | _ => none

/-- Uppercase a string (ASCII). -/
def upStr (s : Str) : Str := s.map Char.toUpper

/-- `datetime.strptime(s, "%H:%M")`, as a validity check. -/
def parse24 (s : Str) : Bool :=
  match splitSep ':' s with
  | [hs, ms] =>
    !hs.isEmpty && decide (hs.length ≤ 2) && hs.all Char.isDigit
      && !ms.isEmpty && decide (ms.length ≤ 2) && ms.all Char.isDigit
      && decide (decVal hs ≤ 23) && decide (decVal ms ≤ 59)
  | _ => false

/-- `datetime.strptime(s, "%I:%M %p")`, returning the 24-hour time. -/
def parse12V (s : Str) : Option (Nat × Nat) :=
  match splitSep ' ' s with
  | [t, ap] =>
    (match splitSep ':' t with
     | [hs, ms] =>
       if !hs.isEmpty && decide (hs.length ≤ 2) && hs.all Char.isDigit
           && decide (1 ≤ decVal hs) && decide (decVal hs ≤ 12)
           && !ms.isEmpty && decide (ms.length ≤ 2) && ms.all Char.isDigit
           && decide (decVal ms ≤ 59) then
         if upStr ap == "AM".data then
           some (if decVal hs = 12 then 0 else decVal hs, decVal ms)
         else if upStr ap == "PM".data then
           some (if decVal hs = 12 then 12 else decVal hs + 12, decVal ms)
         else none
       else none
     | _ => none)
  | _ => none

/-- `datetime.strptime(s, "%H:%M")`, returning the time. -/
def parse24V (s : Str) : Option (Nat × Nat) :=
  if parse24 s then
    match splitSep ':' s with
    | [hs, ms] => some (decVal hs, decVal ms)
    | _ => none
  else none

/-- Whether a value passes the date-field validation. -/
def dateFieldOk (v : PyVal) : Bool := (strpYMD (firstWord (pyStr v))).isSome

/-- Whether a value passes the time-field validation (AM/PM in the
uppercased text selects the 12-hour format). -/
def timeFieldOk (v : PyVal) : Bool :=
  let s := (pyStr v).data
  if hasSeq ("AM".data) (upStr s) || hasSeq ("PM".data) (upStr s) then
    (parse12V s).isSome
  else parse24 s

/-- Whether `float(value)` succeeds (numbers and booleans always do;
strings must parse). -/
def numFieldOk : PyVal → Bool
  | .pstr s => (pyFloatParse s).isSome
  | .pnone => false
  | _ => true

/-- A single-quote character, for building the validation messages. -/
def squote : String := String.singleton (Char.ofNat 39)

/-- `validate_record`: the four validation loops, in source order,
collecting messages that name the offending field. -/
def validate_record (d : PyRec) : List String :=
  ((REQUIRED_FIELDS.filter (fun f => !(presentTruthy d f))).map
      (fun f => squote ++ f ++ squote ++ " is a required field."))
  ++ ((DATE_FIELDS.filter (fun f =>
        presentTruthy d f && !(dateFieldOk ((lookupPy d f).getD .pnone)))).map
      (fun f => squote ++ f ++ squote ++ " must be in YYYY-MM-DD format."))
  ++ ((TIME_FIELDS.filter (fun f =>
        presentTruthy d f && !(timeFieldOk ((lookupPy d f).getD .pnone)))).map
      (fun f => squote ++ f ++ squote ++ " must be in HH:MM or HH:MM AM/PM format."))
  ++ ((NUMERIC_FIELDS.filter (fun f =>
        presentTruthy d f && !(numFieldOk ((lookupPy d f).getD .pnone)))).map
      (fun f => squote ++ f ++ squote ++ " must be a numeric value."))

/-- A cell value of the batch tool's sheet. -/
inductive XlVal where
  | xnone
  | xstr (s : String)
  | xint (n : Int)
  | xfloat (q : Rat)
  | xbool (b : Bool)
  | xdate (d : Nat × Nat × Nat)
  | xtime (t : Nat × Nat)
deriving DecidableEq, Repr

/-- A Python value written to a cell unchanged. -/
def xofPy : PyVal → XlVal
  | .pnone => .xnone
  | .pstr s => .xstr s
  | .pint n => .xint n
  | .pfloat q => .xfloat q
  | .pbool b => .xbool b

/-- `int(value)` (floats truncate toward zero, strings must be integral). -/
def intOf : PyVal → Option Int
  | .pint n => some n
  | .pfloat q => some (Int.div q.num (q.den : Int))
  | .pbool b => some (if b then 1 else 0)
  | .pstr s => pyIntParse s
  | .pnone => none

/-- `float(value)`. -/
def floatOf : PyVal → Option Rat
  | .pint n => some (n : Rat)
  | .pfloat q => some q
  | .pbool b => some (if b then 1 else 0)
  | .pstr s => pyFloatParse s
  | .pnone => none

/-- `_convert_to_excel_value`: type coercion per field class, keeping the
string form when conversion fails. -/
def convert_to_excel_value (field : String) (value : PyVal) : XlVal :=
  if value = .pnone ∨ value = .pstr "" then .xnone
  else if field ∈ DATE_FIELDS then
    match strpYMD (firstWord (pyStr value)) with
    | some d => .xdate d
    | none => .xstr (pyStr value)
  else if field ∈ TIME_FIELDS then
    (let s := (pyStr value).data
     if hasSeq ("AM".data) (upStr s) || hasSeq ("PM".data) (upStr s) then
       match parse12V s with
       | some t => .xtime t
       | none => .xstr (pyStr value)
     else
       match parse24V s with
       | some t => .xtime t
       | none => .xstr (pyStr value))
  else if field ∈ NUMERIC_FIELDS then
    (if '.' ∈ (pyStr value).data then
       match floatOf value with
       | some q => .xfloat q
       | none => .xstr (pyStr value)
     else
       match intOf value with
       | some n => .xint n
       | none => .xstr (pyStr value))
  else if field ∈ BOOLEAN_FIELDS then
    .xbool ((lowStr (pyStr value).data == "yes".data)
      || (lowStr (pyStr value).data == "true".data))
  else xofPy value

/-- `add_record`: validate; on any error print and return False without
touching the sheet; otherwise assign a patient id if missing and append
the converted row. -/
def add_record (gen : String) (record_data : PyRec) (wb : List (List XlVal)) :
    Bool × List (List XlVal) :=
  if validate_record record_data ≠ [] then (false, wb)
  else
    let data := if presentTruthy record_data "Patient ID" then record_data
                else setPy record_data "Patient ID" (.pstr gen)
    (true, wb ++ [COLUMN_HEADERS.map
      (fun h => convert_to_excel_value h ((lookupPy data h).getD (.pstr "")))])

/-! ## Concrete example rows used by witnesses and counterexamples -/

/-- A stored record with surrogate id 1. -/
def rec1 : Rec :=
  [("id", .intv 1), ("patient_id", .text "P1"), ("full_name", .text "Alice Smith"),
   ("nurse_name", .text "Nurse Joy"), ("date_of_visit", .text "2024-01-01"),
   ("time_of_visit", .text "09:00")]

/-- The import's required-column assignment when the sheet headers are
the db field names themselves. -/
def reqColsEx : ReqCols :=
  ⟨"full_name", "date_of_visit", "time_of_visit", "nurse_name"⟩

/-- No optional sheet column mapped. -/
def noOptCols : String → Option String := fun _ => none

/-- Only the patient_id optional column mapped. -/
def pidCols : String → Option String :=
  fun f => if f == "patient_id" then some "patient_id" else none

/-- An import row with a valid visit date but the unparsable time "x". -/
def timeRowBad : DfRow :=
  [("full_name", some "Bob Stone"), ("date_of_visit", some "2024-03-05"),
   ("time_of_visit", some "x"), ("nurse_name", some "Nurse Joy")]

/-- An import row with an unparsable visit date. -/
def dateRowBad : DfRow :=
  [("full_name", some "Bob Stone"), ("date_of_visit", some "not a date"),
   ("time_of_visit", some "10:00"), ("nurse_name", some "Nurse Joy")]

/-- An import row whose patient id collides with `rec1`. -/
def bobRow : DfRow :=
  [("patient_id", some "P1"), ("full_name", some "Bob Stone"),
   ("date_of_visit", some "2024-03-05"), ("time_of_visit", some "10:00"),
   ("nurse_name", some "Nurse Ann")]

/-- A batch-tool record missing its Full Name. -/
def batchNoName : PyRec :=
  [("Date of Visit", .pstr "2024-03-05"), ("Time of Visit", .pstr "09:00"),
   ("Nurse Name/ID", .pstr "Joy")]

/-- The patient id that `create_record` ends up inserting: the supplied one
when present and truthy, else the generated one. -/
def effective_pid (genId : String) (data : Rec) : DBVal :=
  if pidPresent data then getF data "patient_id" else .text genId

/-- A record whose full name is "axb" (no "a_b" substring anywhere). -/
def recWild : Rec :=
  [("id", .intv 1), ("patient_id", .text "P1"), ("full_name", .text "axb"),
   ("nurse_name", .text "Nurse Joy"), ("date_of_visit", .text "2024-01-01"),
   ("time_of_visit", .text "09:00")]

/-- Visit on 2024-01-01 (spec's search-ordering example). -/
def recJan : Rec :=
  [("id", .intv 1), ("patient_id", .text "P1"), ("full_name", .text "Alice Smith"),
   ("nurse_name", .text "Nurse Joy"), ("date_of_visit", .text "2024-01-01"),
   ("time_of_visit", .text "09:00")]

/-- Visit on 2024-03-01. -/
def recMar : Rec :=
  [("id", .intv 2), ("patient_id", .text "P2"), ("full_name", .text "Alice Smith"),
   ("nurse_name", .text "Nurse Joy"), ("date_of_visit", .text "2024-03-01"),
   ("time_of_visit", .text "09:00")]

/-- Visit on 2024-02-01. -/
def recFeb : Rec :=
  [("id", .intv 3), ("patient_id", .text "P3"), ("full_name", .text "Alice Smith"),
   ("nurse_name", .text "Nurse Joy"), ("date_of_visit", .text "2024-02-01"),
   ("time_of_visit", .text "09:00")]

/-- A store row already in the canonical schema (temperature in Celsius,
blood pressure split, visit details populated). -/
def canonical_row_ex : Rec :=
  [("id", .intv 1), ("patient_id", .text "P1"), ("full_name", .text "Alice Smith"),
   ("date_of_visit", .text "2024-03-01"), ("time_of_visit", .text "09:00"),
   ("nurse_name", .text "Nurse Joy"), ("visit_reason_category", .text "Illness"),
   ("visit_details", .text "x"), ("temperature", .realv 37), ("heart_rate", .intv 70),
   ("blood_pressure_systolic", .intv 120), ("blood_pressure_diastolic", .intv 80),
   ("created_at", .text "2024-03-01 09:05:00"), ("updated_at", .text "2024-03-01 09:05:00")]

theorem splitND_ne_nil (s : Str) : splitND s ≠ [] := by
  cases s with
  | nil => simp [splitND]
  | cons c cs =>
    simp only [splitND]
    split
    · cases h : splitND cs <;> simp
    · simp

theorem splitND_digit_cons {c : Char} (hc : c.isDigit) (s : Str) {g : Str} {gs : List Str}
    (h : splitND s = g :: gs) : splitND (c :: s) = (c :: g) :: gs := by
  simp [splitND, hc, h]

theorem splitND_digits_append {d : Str} (hd : ∀ x ∈ d, x.isDigit) (s : Str)
    {g : Str} {gs : List Str} (h : splitND s = g :: gs) :
    splitND (d ++ s) = (d ++ g) :: gs := by
  induction d with
  | nil => simpa using h
  | cons c cs ih =>
    have hc : c.isDigit := hd c (by simp)
    have ihs : splitND (cs ++ s) = (cs ++ g) :: gs :=
      ih (fun x hx => hd x (by simp [hx]))
    simpa using splitND_digit_cons hc (cs ++ s) ihs

theorem splitND_nondigit_cons {c : Char} (hc : ¬ c.isDigit) (s : Str) :
    splitND (c :: s) = [] :: splitND s := by
  simp [splitND, hc]

theorem digitRuns_nondigit_cons {c : Char} (hc : ¬ c.isDigit) (s : Str) :
    digitRuns (c :: s) = digitRuns s := by
  simp [digitRuns, splitND_nondigit_cons hc, List.filter_cons]

theorem digitRuns_all_nondigit {s : Str} (h : ∀ c ∈ s, ¬ c.isDigit) :
    digitRuns s = [] := by
  induction s with
  | nil => simp [digitRuns, splitND, List.filter_cons]
  | cons c cs ih =>
    rw [digitRuns_nondigit_cons (h c (by simp)) cs]
    exact ih (fun x hx => h x (by simp [hx]))

theorem digitRuns_nondigit_append {pre : Str} (h : ∀ c ∈ pre, ¬ c.isDigit) (s : Str) :
    digitRuns (pre ++ s) = digitRuns s := by
  induction pre with
  | nil => simp
  | cons c cs ih =>
    rw [List.cons_append, digitRuns_nondigit_cons (h c (by simp))]
    exact ih (fun x hx => h x (by simp [hx]))

/-- On a string of the exact form digits-separator-digits, the parser
returns the two runs. -/
theorem bpParse_split {d1 d2 : Str} {c : Char}
    (h1 : d1 ≠ []) (h2 : d2 ≠ []) (hd1 : ∀ x ∈ d1, x.isDigit)
    (hd2 : ∀ x ∈ d2, x.isDigit) (hc : ¬ c.isDigit) :
    bpParse (d1 ++ c :: d2) = (some (decVal d1), some (decVal d2)) := by
  have hdd2 : splitND d2 = [d2] := by
    have := splitND_digits_append hd2 ([] : Str) (by simp [splitND] : splitND [] = [[]] )
    simpa using this
  have hsep : splitND (c :: d2) = [] :: [d2] := by
    rw [splitND_nondigit_cons hc, hdd2]
  have hall : splitND (d1 ++ c :: d2) = (d1 ++ []) :: [d2] :=
    splitND_digits_append hd1 (c :: d2) hsep
  simp only [List.append_nil] at hall
  simp [bpParse, digitRuns, hall, List.filter_cons, h1, h2]

theorem splitND_all_nondigit_head {post : Str} (h : ∀ c ∈ post, ¬ c.isDigit) :
    ∃ gs, splitND post = [] :: gs ∧ gs.filter (fun p => p ≠ []) = [] := by
  cases post with
  | nil => exact ⟨[], by simp [splitND], by simp⟩
  | cons c r =>
    refine ⟨splitND r, splitND_nondigit_cons (h c (by simp)) r, ?_⟩
    have := digitRuns_all_nondigit (s := r) (fun x hx => h x (by simp [hx]))
    simpa [digitRuns] using this

theorem digitRuns_single_run {d : Str} (hd : ∀ x ∈ d, x.isDigit) (hne : d ≠ [])
    {post : Str} (hp : ∀ c ∈ post, ¬ c.isDigit) :
    digitRuns (d ++ post) = [d] := by
  obtain ⟨gs, hpost, hgs⟩ := splitND_all_nondigit_head hp
  have hall : splitND (d ++ post) = (d ++ []) :: gs := splitND_digits_append hd post hpost
  simp only [List.append_nil] at hall
  simp [digitRuns, hall, List.filter_cons, hne, hgs]
  intro a ha
  by_contra hcon
  have hmem : a ∈ gs.filter (fun p => p ≠ []) :=
    List.mem_filter.mpr ⟨ha, by simpa using hcon⟩
  rw [hgs] at hmem
  simp at hmem

/-- A string with exactly one maximal digit run parses to (none, none). -/
theorem bpParse_one_run {pre d post : Str} (hpre : ∀ c ∈ pre, ¬ c.isDigit)
    (hd : ∀ x ∈ d, x.isDigit) (hne : d ≠ []) (hp : ∀ c ∈ post, ¬ c.isDigit) :
    bpParse (pre ++ d ++ post) = (none, none) := by
  have h1 : digitRuns (pre ++ (d ++ post)) = digitRuns (d ++ post) :=
    digitRuns_nondigit_append hpre (d ++ post)
  have h2 : digitRuns (d ++ post) = [d] := digitRuns_single_run hd hne hp
  simp only [bpParse, List.append_assoc, h1, h2]

/-- A string with no digit at all parses to (none, none). -/
theorem bpParse_no_digit {s : Str} (h : ∀ c ∈ s, ¬ c.isDigit) :
    bpParse s = (none, none) := by
  simp [bpParse, digitRuns_all_nondigit h]

theorem insert_all_error (l : List Rec) (acc : Store)
    (h : ∃ m ∈ l, row_not_null_ok m = false) :
    ∃ e, insert_all l acc = .error e := by
  induction l generalizing acc with
  | nil => obtain ⟨m, hm, _⟩ := h; simp at hm
  | cons r rs ih =>
    obtain ⟨m, hm, hbad⟩ := h
    by_cases hr : row_not_null_ok r = false
    · exact ⟨.notNullViolation, by simp [insert_all, hr]⟩
    · by_cases hu : acc.any (fun x =>
          getF x "patient_id" == getF r "patient_id" && getF r "patient_id" != DBVal.null) = true
      · exact ⟨.uniqueViolation, by simp [insert_all, hr, hu]⟩
      · have hmem : m ∈ rs := by
          rcases List.mem_cons.mp hm with h1 | h1
          · exact absurd (h1 ▸ hbad) hr
          · exact h1
        obtain ⟨e, he⟩ := ih (acc ++ [r]) ⟨m, hmem, hbad⟩
        exact ⟨e, by simp [insert_all, hr, hu, he]⟩

theorem likeMF_fuel (f1 : Nat) : ∀ (f2 : Nat) (p s : Str),
    p.length + s.length < f1 → p.length + s.length < f2 →
    likeMF f1 p s = likeMF f2 p s := by
  induction f1 with
  | zero => intro f2 p s h1 _; omega
  | succ a ih =>
    intro f2 p s h1 h2
    cases f2 with
    | zero => omega
    | succ b =>
      cases p with
      | nil => cases s <;> simp [likeMF]
      | cons x ps =>
        simp only [List.length_cons] at h1 h2
        cases s with
        | nil =>
          simp only [List.length_nil] at h1 h2
          simp only [likeMF]
          by_cases hx : x = '%'
          · simp only [if_pos hx]
            rw [ih b ps [] (by simp; omega) (by simp; omega)]
          · simp only [if_neg hx]
        | cons c s' =>
          simp only [List.length_cons] at h1 h2
          simp only [likeMF]
          by_cases hx : x = '%'
          · simp only [if_pos hx]
            rw [ih b ps (c :: s') (by simp <;> omega) (by simp <;> omega),
                ih b (x :: ps) s' (by simp <;> omega) (by simp <;> omega)]
          · simp only [if_neg hx]
            by_cases hu : x = '_'
            · simp only [if_pos hu]
              exact ih b ps s' (by omega) (by omega)
            · simp only [if_neg hu]
              rw [ih b ps s' (by omega) (by omega)]

theorem likeM_cons_nil (a : Char) (ps : Str) :
    likeM (a :: ps) [] = (if a = '%' then likeM ps [] else false) := rfl

theorem likeM_cons_cons (a : Char) (ps : Str) (c : Char) (s' : Str) :
    likeM (a :: ps) (c :: s')
      = (if a = '%' then likeM ps (c :: s') || likeM (a :: ps) s'
         else if a = '_' then likeM ps s'
         else lowEq a c && likeM ps s') := by
  show likeMF ((a :: ps).length + (c :: s').length + 1) (a :: ps) (c :: s') = _
  simp only [List.length_cons, likeMF]
  have hf : likeMF (ps.length + 1 + (s'.length + 1)) ps s' = likeM ps s' :=
    likeMF_fuel _ _ ps s' (by omega) (by omega)
  have hf1 : likeMF (ps.length + 1 + (s'.length + 1)) ps (c :: s') = likeM ps (c :: s') :=
    likeMF_fuel _ _ ps (c :: s') (by simp <;> omega) (by simp <;> omega)
  have hf2 : likeMF (ps.length + 1 + (s'.length + 1)) (a :: ps) s' = likeM (a :: ps) s' :=
    likeMF_fuel _ _ (a :: ps) s' (by simp <;> omega) (by simp <;> omega)
  by_cases ha : a = '%'
  · simp only [if_pos ha, hf1, hf2]
  · simp only [if_neg ha]
    by_cases hu : a = '_'
    · simp only [if_pos hu, hf]
    · simp only [if_neg hu, hf]

theorem likeM_percent_all : ∀ s : Str, likeM ['%'] s = true := by
  intro s
  induction s with
  | nil => rfl
  | cons c s' ih =>
    rw [likeM_cons_cons]
    simp [ih]

theorem likeM_plain_concat {t : Str} (ht : ∀ a ∈ t, a ≠ '%' ∧ a ≠ '_') :
    ∀ s : Str, likeM (t ++ ['%']) s = leadCI t s := by
  induction t with
  | nil => intro s; simpa [leadCI] using likeM_percent_all s
  | cons a as ih =>
    intro s
    have ha := ht a (by simp)
    cases s with
    | nil =>
      rw [List.cons_append, likeM_cons_nil]
      simp [ha.1, leadCI]
    | cons c s' =>
      rw [List.cons_append, likeM_cons_cons]
      simp only [if_neg ha.1, if_neg ha.2]
      rw [ih (fun x hx => ht x (by simp [hx])) s']
      rfl

theorem likeM_pattern_contains {t : Str} (ht : ∀ a ∈ t, a ≠ '%' ∧ a ≠ '_') :
    ∀ s : Str, likeM ('%' :: (t ++ ['%'])) s = hasRunCI t s := by
  intro s
  induction s with
  | nil =>
    rw [likeM_cons_nil]
    simp only [if_pos rfl]
    rw [likeM_plain_concat ht []]
    simp [hasRunCI]
  | cons c s' ih =>
    rw [likeM_cons_cons]
    simp only [if_pos rfl]
    rw [likeM_plain_concat ht (c :: s'), ih]
    rfl

theorem rowMatches_eq_specMatch {term : String}
    (hw : ∀ a ∈ term.data, a ≠ '%' ∧ a ≠ '_') (r : Rec) :
    rowMatches term r = specMatch term r := by
  have hfun : ∀ v : DBVal,
      (match likeSubject v with
        | none => false
        | some s => likeM (likePattern term) s)
      = (match likeSubject v with
        | none => false
        | some s => hasRunCI term.data s) := by
    intro v
    cases likeSubject v with
    | none => rfl
    | some s => exact likeM_pattern_contains hw s
  simp only [rowMatches, specMatch, List.any_cons, List.any_nil, hfun]

theorem strLe_refl : ∀ s : Str, strLe s s = true := by
  intro s
  induction s with
  | nil => rfl
  | cons a as ih => simp [strLe, ih]

theorem strLe_total : ∀ a b : Str, strLe a b = true ∨ strLe b a = true := by
  intro a
  induction a with
  | nil => intro b; left; rfl
  | cons x xs ih =>
    intro b
    cases b with
    | nil => right; rfl
    | cons y ys =>
      rcases Nat.lt_trichotomy x.toNat y.toNat with h | h | h
      · left; simp [strLe, h]
      · rcases ih ys with h2 | h2
        · left; simp [strLe, h, h2]
        · right; simp [strLe, h.symm, h2]
      · right; simp [strLe, h]

theorem strLe_trans : ∀ a b c : Str, strLe a b = true → strLe b c = true → strLe a c = true := by
  intro a
  induction a with
  | nil => intro b c _ _; rfl
  | cons x xs ih =>
    intro b c h1 h2
    cases b with
    | nil => simp [strLe] at h1
    | cons y ys =>
      cases c with
      | nil => simp [strLe] at h2
      | cons z zs =>
        simp only [strLe] at h1 h2 ⊢
        split_ifs at h1 h2 ⊢ <;>
          first
            | rfl
            | omega
            | exact ih ys zs h1 h2
            | simp_all

theorem valLe_refl : ∀ v : DBVal, valLe v v = true := by
  intro v
  cases v <;> simp [valLe, strLe_refl]

theorem valLe_total : ∀ a b : DBVal, valLe a b = true ∨ valLe b a = true := by
  intro a b
  cases a <;> cases b <;> simp [valLe] <;>
    first
      | exact Int.le_total ..
      | exact le_total ..
      | exact strLe_total ..

theorem valLe_trans : ∀ a b c : DBVal,
    valLe a b = true → valLe b c = true → valLe a c = true := by
  intro a b c h1 h2
  cases a <;> cases b <;> cases c <;>
    simp only [valLe, decide_eq_true_eq] at h1 h2 ⊢ <;>
    first
      | rfl
      | exact absurd h1 Bool.false_ne_true
      | exact absurd h2 Bool.false_ne_true
      | omega
      | exact strLe_trans _ _ _ h1 h2
      | exact le_trans h1 h2
      | exact Int.cast_le.mp (le_trans h1 h2)
      | exact le_trans (Int.cast_le.mpr h1) h2
      | exact le_trans h1 (Int.cast_le.mpr h2)

theorem valLe_of_not_lt {a b : DBVal} (h : valLt a b = false) : valLe b a = true := by
  simpa [valLt] using h

theorem valLe_of_lt {a b : DBVal} (h : valLt a b = true) : valLe a b = true := by
  have h' : valLe b a = false := by simpa [valLt, Bool.not_eq_true'] using h
  rcases valLe_total a b with ht | ht
  · exact ht
  · exact absurd (ht.symm.trans h').symm Bool.false_ne_true

theorem valLt_of_le_of_lt {x y z : DBVal} (hxy : valLe x y = true) (hyz : valLt y z = true) :
    valLt x z = true := by
  simp only [valLt, Bool.not_eq_true'] at hyz ⊢
  cases hzx : valLe z x with
  | false => rfl
  | true => exact absurd ((valLe_trans z x y hzx hxy).symm.trans hyz).symm Bool.false_ne_true

theorem valLt_of_lt_of_le {x y z : DBVal} (hxy : valLt x y = true) (hyz : valLe y z = true) :
    valLt x z = true := by
  simp only [valLt, Bool.not_eq_true'] at hxy ⊢
  cases hzx : valLe z x with
  | false => rfl
  | true => exact absurd ((valLe_trans y z x hyz hzx).symm.trans hxy).symm Bool.false_ne_true

theorem keyLe_refl (k : DBVal × DBVal) : keyLe k k = true := by
  have h : valLt k.1 k.1 = false := by simp [valLt, valLe_refl]
  simp [keyLe, h, valLe_refl]

theorem keyLe_total (a b : DBVal × DBVal) : keyLe a b = true ∨ keyLe b a = true := by
  cases h1 : valLt a.1 b.1 with
  | true => left; simp [keyLe, h1]
  | false =>
    cases h2 : valLt b.1 a.1 with
    | true => right; simp [keyLe, h2]
    | false =>
      rcases valLe_total a.2 b.2 with h | h
      · left; simp [keyLe, h1, h2, h]
      · right; simp [keyLe, h1, h2, h]

theorem keyLe_trans (a b c : DBVal × DBVal)
    (h1 : keyLe a b = true) (h2 : keyLe b c = true) : keyLe a c = true := by
  unfold keyLe at h1 h2 ⊢
  cases hab : valLt a.1 b.1 with
  | true =>
    cases hbc : valLt b.1 c.1 with
    | true =>
      have h := valLt_of_lt_of_le hab (valLe_of_lt hbc)
      simp [h]
    | false =>
      rw [hbc] at h2
      cases hcb : valLt c.1 b.1 with
      | true => rw [hcb] at h2; simp at h2
      | false =>
        have hb1c1 : valLe b.1 c.1 = true := valLe_of_not_lt hcb
        have h := valLt_of_lt_of_le hab hb1c1
        simp [h]
  | false =>
    rw [hab] at h1
    cases hba : valLt b.1 a.1 with
    | true => rw [hba] at h1; simp at h1
    | false =>
      rw [hba] at h1
      simp only [if_false, Bool.false_eq_true, ite_false] at h1
      have hab1 : valLe a.1 b.1 = true := valLe_of_not_lt hba
      have hba1 : valLe b.1 a.1 = true := valLe_of_not_lt hab
      cases hbc : valLt b.1 c.1 with
      | true =>
        have h := valLt_of_le_of_lt hab1 hbc
        simp [h]
      | false =>
        rw [hbc] at h2
        cases hcb : valLt c.1 b.1 with
        | true => rw [hcb] at h2; simp at h2
        | false =>
          rw [hcb] at h2
          simp only [if_false, Bool.false_eq_true, ite_false] at h2
          have hbc1 : valLe b.1 c.1 = true := valLe_of_not_lt hcb
          have hcb1 : valLe c.1 b.1 = true := valLe_of_not_lt hbc
          have hac : valLe a.1 c.1 = true := valLe_trans _ _ _ hab1 hbc1
          have hca : valLe c.1 a.1 = true := valLe_trans _ _ _ hcb1 hba1
          have hlt1 : valLt a.1 c.1 = false := by simp [valLt, hca]
          have hlt2 : valLt c.1 a.1 = false := by simp [valLt, hac]
          rw [hlt1, hlt2]
          simpa using valLe_trans _ _ _ h1 h2

theorem mem_insDesc {z x : Rec} : ∀ {l : Store}, z ∈ insDesc x l ↔ z = x ∨ z ∈ l := by
  intro l
  induction l with
  | nil => simp [insDesc]
  | cons y ys ih =>
    unfold insDesc
    by_cases h : keyLe (keyOf x) (keyOf y) = true
    · simp only [if_pos h, List.mem_cons, ih]
      tauto
    · simp only [if_neg h, List.mem_cons]

theorem insDesc_perm (x : Rec) : ∀ l : Store, (insDesc x l).Perm (x :: l) := by
  intro l
  induction l with
  | nil => simp [insDesc]
  | cons y ys ih =>
    unfold insDesc
    by_cases h : keyLe (keyOf x) (keyOf y) = true
    · simp only [if_pos h]
      exact (ih.cons y).trans (List.Perm.swap x y ys)
    · simp [if_neg h]

theorem foldl_insDesc_perm : ∀ (l acc : Store),
    (l.foldl (fun acc x => insDesc x acc) acc).Perm (acc ++ l) := by
  intro l
  induction l with
  | nil => intro acc; simp
  | cons x xs ih =>
    intro acc
    have h1 := ih (insDesc x acc)
    have h2 : (insDesc x acc ++ xs).Perm ((x :: acc) ++ xs) :=
      (insDesc_perm x acc).append_right xs
    have h3 : ((x :: acc) ++ xs).Perm (acc ++ x :: xs) := by
      simpa using List.perm_middle.symm
    exact (h1.trans h2).trans h3

theorem sortDesc_perm (l : Store) : (sortDesc l).Perm l := by
  simpa [sortDesc] using foldl_insDesc_perm l []

theorem pairwise_insDesc {x : Rec} : ∀ {l : Store},
    l.Pairwise (fun a b => keyLe (keyOf b) (keyOf a) = true) →
    (insDesc x l).Pairwise (fun a b => keyLe (keyOf b) (keyOf a) = true) := by
  intro l
  induction l with
  | nil => intro _; simp [insDesc]
  | cons y ys ih =>
    intro hp
    rw [List.pairwise_cons] at hp
    obtain ⟨hy, hys⟩ := hp
    unfold insDesc
    by_cases h : keyLe (keyOf x) (keyOf y) = true
    · simp only [if_pos h]
      rw [List.pairwise_cons]
      refine ⟨?_, ih hys⟩
      intro z hz
      rcases mem_insDesc.mp hz with rfl | hz'
      · exact h
      · exact hy z hz'
    · simp only [if_neg h]
      have hxy : keyLe (keyOf y) (keyOf x) = true := by
        rcases keyLe_total (keyOf x) (keyOf y) with h' | h'
        · exact absurd h' h
        · exact h'
      rw [List.pairwise_cons]
      constructor
      · intro z hz
        rcases List.mem_cons.mp hz with rfl | hz'
        · exact hxy
        · exact keyLe_trans _ _ _ (hy z hz') hxy
      · rw [List.pairwise_cons]
        exact ⟨hy, hys⟩

theorem sortDesc_pairwise (l : Store) :
    (sortDesc l).Pairwise (fun a b => keyLe (keyOf b) (keyOf a) = true) := by
  suffices h : ∀ (l acc : Store),
      acc.Pairwise (fun a b => keyLe (keyOf b) (keyOf a) = true) →
      (l.foldl (fun acc x => insDesc x acc) acc).Pairwise
        (fun a b => keyLe (keyOf b) (keyOf a) = true) by
    simpa [sortDesc] using h l [] (by simp)
  intro l
  induction l with
  | nil => intro acc h; simpa using h
  | cons x xs ih => intro acc h; exact ih _ (pairwise_insDesc h)

theorem filter_insDesc (k : DBVal × DBVal) (x : Rec) : ∀ l : Store,
    l.Pairwise (fun a b => keyLe (keyOf b) (keyOf a) = true) →
    (insDesc x l).filter (fun r => keyEq (keyOf r) k)
      = if keyEq (keyOf x) k then l.filter (fun r => keyEq (keyOf r) k) ++ [x]
        else l.filter (fun r => keyEq (keyOf r) k) := by
  intro l
  induction l with
  | nil =>
    intro _
    by_cases hx : keyEq (keyOf x) k = true <;> simp [insDesc, List.filter_cons, hx]
  | cons y ys ih =>
    intro hp
    rw [List.pairwise_cons] at hp
    obtain ⟨hy, hys⟩ := hp
    unfold insDesc
    by_cases h : keyLe (keyOf x) (keyOf y) = true
    · simp only [if_pos h, List.filter_cons]
      rw [ih hys]
      by_cases hx : keyEq (keyOf x) k = true <;>
        by_cases hyk : keyEq (keyOf y) k = true <;>
        simp [hx, hyk]
    · simp only [if_neg h]
      by_cases hx : keyEq (keyOf x) k = true
      · have hempty : ∀ z ∈ y :: ys, keyEq (keyOf z) k = false := by
          intro z hz
          have hzy : keyLe (keyOf z) (keyOf y) = true := by
            rcases List.mem_cons.mp hz with rfl | hz'
            · exact keyLe_refl _
            · exact hy z hz'
          cases hzk : keyEq (keyOf z) k with
          | false => rfl
          | true =>
            exfalso
            have hx1 : keyLe (keyOf x) k = true := by
              have h' := hx; simp only [keyEq, Bool.and_eq_true] at h'; exact h'.1
            have hz2 : keyLe k (keyOf z) = true := by
              have h' := hzk; simp only [keyEq, Bool.and_eq_true] at h'; exact h'.2
            have := keyLe_trans _ _ _ (keyLe_trans _ _ _ hx1 hz2) hzy
            exact absurd this h
        have hfil : (y :: ys).filter (fun r => keyEq (keyOf r) k) = [] := by
          rw [List.filter_eq_nil]
          intro a ha
          simp [hempty a ha]
        rw [List.filter_cons, if_pos hx, hfil]
        simp [hx]
      · simp only [List.filter_cons, if_neg hx]


theorem sortDesc_filter (k : DBVal × DBVal) (l : Store) :
    (sortDesc l).filter (fun r => keyEq (keyOf r) k)
      = l.filter (fun r => keyEq (keyOf r) k) := by
  suffices h : ∀ (l acc : Store),
      acc.Pairwise (fun a b => keyLe (keyOf b) (keyOf a) = true) →
      (l.foldl (fun acc x => insDesc x acc) acc).filter (fun r => keyEq (keyOf r) k)
        = acc.filter (fun r => keyEq (keyOf r) k) ++ l.filter (fun r => keyEq (keyOf r) k) by
    simpa [sortDesc] using h l [] (by simp)
  intro l
  induction l with
  | nil => intro acc _; simp
  | cons x xs ih =>
    intro acc hacc
    show ((xs.foldl (fun acc x => insDesc x acc) (insDesc x acc)).filter
            (fun r => keyEq (keyOf r) k)) = _
    rw [ih _ (pairwise_insDesc hacc), filter_insDesc k x acc hacc, List.filter_cons]
    by_cases hx : keyEq (keyOf x) k = true <;> simp [hx]

theorem getF_setF_eq (r : Rec) (k : String) (v : DBVal) : getF (setF r k v) k = v := by
  induction r with
  | nil => simp [setF, getF]
  | cons p r ih =>
    by_cases h : p.1 = k
    · simp [setF, getF, h]
    · simp only [setF]
      rw [if_neg (by simp [h])]
      simp only [getF, List.find?]
      rw [show (p.1 == k) = false by simp [h]]
      exact ih

theorem getF_setF_ne (r : Rec) {k k' : String} (v : DBVal) (h : k' ≠ k) :
    getF (setF r k' v) k = getF r k := by
  induction r with
  | nil =>
    simp only [setF, getF, List.find?]
    rw [show (k' == k) = false by simp [h]]
  | cons p r ih =>
    by_cases hp : p.1 = k'
    · simp only [setF]
      rw [if_pos (by simp [hp])]
      simp only [getF, List.find?]
      rw [show (k' == k) = false by simp [h],
          show (p.1 == k) = false by simp [hp, h]]
    · simp only [setF]
      rw [if_neg (by simp [hp])]
      simp only [getF, List.find?] at ih ⊢
      cases hc : (p.1 == k) with
      | true => rfl
      | false => exact ih

/-! ## Claim theorems -/

/-- C5 counterexample: "1a2b3" does not match the claimed pattern
(digits, one non-digit separator, digits), yet the importer parses it to
systolic 1 and diastolic 2 instead of two nulls. -/
theorem c5_counterexample :
    specBPFormB ("1a2b3".data) = false ∧ bpParse ("1a2b3".data) = (some 1, some 2) := by
  constructor <;> decide

/-- C5 (amended): a combined string of the form digits-separator-digits
parses to the two integers; a string with fewer than two maximal digit runs
(in particular one with no digit at all, such as "abc") yields both nulls;
no error is raised either way.  (Strings with two or more digit runs that
are not of the simple form take the first two runs, per the
counterexample.) -/
theorem c5_bp_split_amended :
    (∀ (d1 d2 : Str) (c : Char), d1 ≠ [] → d2 ≠ [] →
      (∀ x ∈ d1, x.isDigit) → (∀ x ∈ d2, x.isDigit) → ¬ c.isDigit →
      bpParse (d1 ++ c :: d2) = (some (decVal d1), some (decVal d2)))
    ∧ (∀ s : Str, (∀ c ∈ s, ¬ c.isDigit) → bpParse s = (none, none))
    ∧ (∀ pre d post : Str, (∀ c ∈ pre, ¬ c.isDigit) → (∀ x ∈ d, x.isDigit) →
      d ≠ [] → (∀ c ∈ post, ¬ c.isDigit) → bpParse (pre ++ d ++ post) = (none, none)) :=
  ⟨fun _ _ _ h1 h2 hd1 hd2 hc => bpParse_split h1 h2 hd1 hd2 hc,
   fun _ h => bpParse_no_digit h,
   fun _ _ _ hpre hd hne hp => bpParse_one_run hpre hd hne hp⟩

/-- Witness for C5: "120/80" parses to (120, 80); "abc" parses to two
nulls. -/
theorem c5_witness :
    bpParse ("120/80".data) = (some 120, some 80) ∧ bpParse ("abc".data) = (none, none) := by
  constructor
  · have e : ("120".data ++ '/' :: "80".data) = "120/80".data := by decide
    have h := c5_bp_split_amended.1 ("120".data) ("80".data) '/'
      (by decide) (by decide) (by decide) (by decide) (by decide)
    rw [e] at h
    rw [h]
    decide
  · exact c5_bp_split_amended.2.1 ("abc".data) (by decide)

/-- C7: for every record of the pre-migration store (whose schema has the
`id`, `patient_id` and `created_at` columns), the migrated record keeps the
same surrogate `id`, `patient_id` and `created_at`, and its `updated_at`
equals the migration timestamp. -/
theorem c7_migration_preserves_identity (oldCols : List String) (now : String) (row : Rec)
    (hid : "id" ∈ oldCols) (hpid : "patient_id" ∈ oldCols) (hca : "created_at" ∈ oldCols) :
    getF (migrate_row oldCols now row) "id" = getF row "id"
    ∧ getF (migrate_row oldCols now row) "patient_id" = getF row "patient_id"
    ∧ getF (migrate_row oldCols now row) "created_at" = getF row "created_at"
    ∧ getF (migrate_row oldCols now row) "updated_at" = .text now := by
  refine ⟨?_, ?_, ?_, ?_⟩ <;>
    simp +decide [migrate_row, mappings, getF, expr_or_null, srcCol, hid, hpid, hca, evalExpr]

/-- Witness for C7 at a concrete legacy row and the canonical column set. -/
theorem c7_witness :
    getF (migrate_row canonical_columns "2025-01-01 00:00:00" canonical_row_ex) "patient_id"
      = .text "P1"
    ∧ getF (migrate_row canonical_columns "2025-01-01 00:00:00" canonical_row_ex) "updated_at"
      = .text "2025-01-01 00:00:00" := by
  obtain ⟨h1, h2, h3, h4⟩ :=
    c7_migration_preserves_identity canonical_columns "2025-01-01 00:00:00" canonical_row_ex
      (by decide) (by decide) (by decide)
  refine ⟨?_, h4⟩
  rw [h2]; decide

/-- C2 (code bug): running `run_migration` on a store already in the
canonical schema is not a no-op — the record count is unchanged, but the
already-Celsius temperature is put through the Fahrenheit-to-Celsius
conversion again, and the split blood-pressure and visit-details values are
overwritten with NULL. -/
theorem c2_run_migration_on_canonical_not_noop :
    ∃ out : Rec,
      (run_migration canonical_columns "2025-06-30 12:00:00"
          { records := some [canonical_row_ex], new_records := none }).records = some [out]
      ∧ getF canonical_row_ex "temperature" = .realv 37
      ∧ getF out "temperature" = .realv (25 / 9)
      ∧ getF canonical_row_ex "blood_pressure_systolic" = .intv 120
      ∧ getF out "blood_pressure_systolic" = .null
      ∧ getF canonical_row_ex "visit_details" = .text "x"
      ∧ getF out "visit_details" = .null
      ∧ getF out "updated_at" = .text "2025-06-30 12:00:00" := by
  refine ⟨migrate_row canonical_columns "2025-06-30 12:00:00" canonical_row_ex,
    rfl, by decide, ?_, by decide, by decide, by decide, by decide, by decide⟩
  have h : getF (migrate_row canonical_columns "2025-06-30 12:00:00" canonical_row_ex)
      "temperature" = tempConvVal (DBVal.realv 37) := rfl
  rw [h]
  simp only [tempConvVal, DBVal.realv.injEq]
  norm_num

/-- C3: if the migration's INSERT ... SELECT fails (in particular whenever
some migrated row violates a NOT NULL constraint of the new table), the
whole transaction rolls back and the store is identical to its state
before the migration started. -/
theorem c3_migration_all_or_nothing (oldCols : List String) (now : String)
    (rows : Store) (staged : Option Store) :
    ((∃ e, migration_txn oldCols now { records := some rows, new_records := staged }
        = .error e) →
      run_migration oldCols now { records := some rows, new_records := staged }
        = { records := some rows, new_records := staged })
    ∧ ((∃ r ∈ rows, row_not_null_ok (migrate_row oldCols now r) = false) →
      ∃ e, migration_txn oldCols now { records := some rows, new_records := staged }
        = .error e) := by
  constructor
  · rintro ⟨e, he⟩
    simp [run_migration, he]
  · rintro ⟨r, hr, hbad⟩
    obtain ⟨e, he⟩ := insert_all_error (rows.map (migrate_row oldCols now)) (staged.getD [])
      ⟨migrate_row oldCols now r, List.mem_map_of_mem _ hr, hbad⟩
    refine ⟨e, ?_⟩
    simp only [migration_txn, he]
    rfl

/-- Witness for C3: a store holding one row whose `full_name` is NULL makes
the migration fail, and the failed migration leaves the store unchanged. -/
theorem c3_witness :
    run_migration canonical_columns "2025-01-01 00:00:00"
        { records := some [[("full_name", DBVal.null)]], new_records := none }
      = { records := some [[("full_name", DBVal.null)]], new_records := none } := by
  obtain ⟨habort, herr⟩ :=
    c3_migration_all_or_nothing canonical_columns "2025-01-01 00:00:00"
      [[("full_name", DBVal.null)]] none
  exact habort (herr ⟨[("full_name", DBVal.null)], by simp, by decide⟩)

/-- C9: `delete_record` returns `True` exactly when a record with the given
id existed; it removes exactly the records with that id (all others are
kept, in order), and when no record matches it returns `False` with the
store unchanged — the user-visible "not found" outcome; no exception. -/
theorem c9_delete_semantics (rid : Int) (store : Store) :
    ((delete_record rid store).1 = false ↔ ∀ r ∈ store, getF r "id" ≠ .intv rid)
    ∧ ((∀ r ∈ store, getF r "id" ≠ .intv rid) → (delete_record rid store).2 = store)
    ∧ (∀ r ∈ (delete_record rid store).2, getF r "id" ≠ .intv rid ∧ r ∈ store)
    ∧ (∀ r ∈ store, getF r "id" ≠ .intv rid → r ∈ (delete_record rid store).2) := by
  refine ⟨?_, ?_, ?_, ?_⟩
  · simp [delete_record]
  · intro h
    simp only [delete_record]
    exact List.filter_eq_self.mpr (fun r hr => by simpa using h r hr)
  · intro r hr
    have := List.mem_filter.mp hr
    exact ⟨by simpa using this.2, this.1⟩
  · intro r hr hne
    exact List.mem_filter.mpr ⟨hr, by simpa using hne⟩

/-- Witness for C9: deleting an absent id leaves the store unchanged, and
the surviving record is still present. -/
theorem c9_witness :
    (delete_record 2 [rec1]).2 = [rec1] ∧ rec1 ∈ (delete_record 2 [rec1]).2 := by
  refine ⟨(c9_delete_semantics 2 [rec1]).2.1 (by decide), ?_⟩
  exact (c9_delete_semantics 2 [rec1]).2.2.2 rec1 (by simp) (by decide)

/-- C8 counterexample: with search term "a_b" (containing the LIKE
single-character wildcard), search returns the record named "axb" although
the term is not a case-insensitive substring of its full name, patient id
or nurse name — so search does not return "exactly the records whose
fields contain the term as a substring" for every term. -/
theorem c8_counterexample :
    (search_records "a_b" 1 20 [recWild]).1 = [recWild]
    ∧ specMatch "a_b" recWild = false := by
  constructor <;> decide

/-- C8 (amended): for a search term free of the LIKE wildcards '%' and '_',
and result sets fitting one page, `search_records` returns exactly the
records whose full name, patient id or nurse name contains the term as a
case-insensitive (ASCII) substring, ordered by visit date then visit time
descending (SQLite value order, text compared bytewise), with ties kept
stably in insertion order; terms containing wildcards are interpreted as
LIKE patterns instead. -/
theorem c8_search_semantics (term : String) (per : Nat) (store : Store)
    (hw : ∀ a ∈ term.data, a ≠ '%' ∧ a ≠ '_')
    (hlen : (store.filter (rowMatches term)).length ≤ per) :
    ((search_records term 1 per store).2 = (store.filter (rowMatches term)).length)
    ∧ (∀ r, r ∈ (search_records term 1 per store).1 ↔ r ∈ store ∧ specMatch term r = true)
    ∧ (search_records term 1 per store).1.Pairwise
        (fun a b => keyLe (keyOf b) (keyOf a) = true)
    ∧ (∀ k, (search_records term 1 per store).1.filter (fun r => keyEq (keyOf r) k)
          = (store.filter (fun r => specMatch term r)).filter
              (fun r => keyEq (keyOf r) k)) := by
  have hmatch : store.filter (rowMatches term) = store.filter (fun r => specMatch term r) := by
    apply List.filter_congr
    intro r _
    exact rowMatches_eq_specMatch hw r
  have hres : (search_records term 1 per store).1
      = sortDesc (store.filter (rowMatches term)) := by
    show ((sortDesc (store.filter (rowMatches term))).drop ((1 - 1) * per)).take per = _
    have hlen2 : (sortDesc (store.filter (rowMatches term))).length ≤ per := by
      rw [(sortDesc_perm _).length_eq]
      exact hlen
    simp [List.take_of_length_le hlen2]
  refine ⟨rfl, ?_, ?_, ?_⟩
  · intro r
    rw [hres, (sortDesc_perm _).mem_iff, hmatch, List.mem_filter]
  · rw [hres]
    exact sortDesc_pairwise _
  · intro k
    rw [hres, sortDesc_filter, hmatch]

/-- Witness for C8, on the spec's ordering example: visits dated
2024-01-01, 2024-03-01, 2024-02-01 all match "ali" and come back ordered
2024-03-01, 2024-02-01, 2024-01-01. -/
theorem c8_witness :
    (search_records "ali" 1 20 [recJan, recMar, recFeb]).1 = [recMar, recFeb, recJan]
    ∧ recMar ∈ (search_records "ali" 1 20 [recJan, recMar, recFeb]).1 := by
  constructor
  · decide
  · exact ((c8_search_semantics "ali" 20 [recJan, recMar, recFeb]
      (by decide) (by decide)).2.1 recMar).mpr ⟨by simp, by decide⟩

/-- C10: `update_record` with an empty partial-fields mapping performs no
write: it returns the currently stored record (None when the id is absent)
and the store — every field of every record, `updated_at` included — is
unchanged. -/
theorem c10_empty_update_no_write (now : String) (rid : Int) (store : Store) :
    update_record now rid [] store = (get_record_by_id store rid, store) := rfl

/-- C1 counterexample: the web importer, given a row whose time of visit is
the unparsable string "x", does not fail the row — it silently defaults the
required time to "00:00" and writes the record to the store. -/
theorem c1_counterexample :
    ((processRow reqColsEx noOptCols timeRowBad "GEN-0001" "2025-01-01 00:00:00").map
        (fun r => getF r "time_of_visit")) = .ok (.text "00:00")
    ∧ (import_apply (processRow reqColsEx noOptCols timeRowBad "GEN-0001"
        "2025-01-01 00:00:00") []).length = 1 := by
  exact ⟨rfl, by decide⟩

/-- C1 (amended): the enhanced batch tool does fail a record whose
required field is missing or falsy, with an error naming the field, and
writes nothing; in the web importer only the visit date behaves that way —
a row whose visit date cannot be parsed is failed and not written (while
an unparsable time of visit is silently defaulted to "00:00", per the
counterexample). -/
theorem c1_required_field_handling :
    (∀ (d : PyRec) (f : String), f ∈ REQUIRED_FIELDS → presentTruthy d f = false →
      (squote ++ f ++ squote ++ " is a required field.") ∈ validate_record d
      ∧ ∀ (gen : String) (wb : List (List XlVal)), add_record gen d wb = (false, wb))
    ∧ (∀ (req : ReqCols) (cols : String → Option String) (row : DfRow)
        (genId now : String),
      pdDate (rowGet row req.date_of_visit) = none →
      processRow req cols row genId now = .error .invalidDateFormat
      ∧ ∀ store : Store, import_apply (processRow req cols row genId now) store = store) := by
  constructor
  · intro d f hf hp
    have hf2 : f ∈ REQUIRED_FIELDS.filter (fun g => !(presentTruthy d g)) := by
      apply List.mem_filter.mpr
      refine ⟨hf, ?_⟩
      show (!(presentTruthy d f)) = true
      rw [hp]
      rfl
    have hmem : (squote ++ f ++ squote ++ " is a required field.") ∈ validate_record d := by
      unfold validate_record
      exact List.mem_append_left _ (List.mem_append_left _
        (List.mem_append_left _ (List.mem_map_of_mem _ hf2)))
    refine ⟨hmem, fun gen wb => ?_⟩
    have hne := List.ne_nil_of_mem hmem
    simp [add_record, hne]
  · intro req cols row genId now h
    have hp : processRow req cols row genId now = .error .invalidDateFormat := by
      unfold processRow
      rw [h]
    exact ⟨hp, fun store => by simp [import_apply, hp]⟩

/-- Witness for C1: a batch record missing Full Name is rejected with a
message naming the field and nothing is written; a web row with an
unparsable visit date is failed. -/
theorem c1_witness :
    (squote ++ "Full Name" ++ squote ++ " is a required field.") ∈ validate_record batchNoName
    ∧ add_record "G" batchNoName [] = (false, [])
    ∧ processRow reqColsEx noOptCols dateRowBad "G" "2025-01-01 00:00:00"
        = .error .invalidDateFormat := by
  obtain ⟨h1, h2⟩ := c1_required_field_handling.1 batchNoName "Full Name"
    (by decide) (by decide)
  exact ⟨h1, h2 "G" [],
    (c1_required_field_handling.2 reqColsEx noOptCols dateRowBad "G"
      "2025-01-01 00:00:00" (by decide)).1⟩

/-- C4 counterexample: importing a row whose patient id "P1" collides with
the stored record `rec1` raises no duplicate error; the INSERT OR REPLACE
path overwrites — afterwards the store no longer contains `rec1`. -/
theorem c4_counterexample :
    ((processRow reqColsEx pidCols bobRow "GEN-1" "2025-01-01 00:00:00").map
        (fun r => getF r "patient_id")) = .ok (.text "P1")
    ∧ getF rec1 "patient_id" = .text "P1"
    ∧ rec1 ∉ import_apply (processRow reqColsEx pidCols bobRow "GEN-1"
        "2025-01-01 00:00:00") [rec1]
    ∧ (import_apply (processRow reqColsEx pidCols bobRow "GEN-1"
        "2025-01-01 00:00:00") [rec1]).length = 1 := by
  refine ⟨rfl, by decide, by decide, by decide⟩

/-- C4 (amended): `create_record` does fail (sqlite IntegrityError — the
spec's DuplicateIdentifier) on a colliding non-null patient id, leaving the
store unchanged; but the bulk-import path uses INSERT OR REPLACE: the row
imported is present afterwards and every pre-existing row with that
patient id is gone. -/
theorem c4_duplicate_handling :
    (∀ (genId now : String) (data : Rec) (store : Store),
      (∃ r ∈ store, getF r "patient_id" = effective_pid genId data
          ∧ effective_pid genId data ≠ DBVal.null) →
      create_record genId now data store = (.error .integrityError, store))
    ∧ (∀ (newRec : Rec) (store : Store),
        getF newRec "patient_id" ≠ DBVal.null →
        setF newRec "id" (.intv (nextId store)) ∈ insert_or_replace newRec store
        ∧ ∀ r ∈ store, getF r "patient_id" = getF newRec "patient_id" →
            r ≠ setF newRec "id" (.intv (nextId store)) →
            r ∉ insert_or_replace newRec store) := by
  constructor
  · rintro genId now data store ⟨r, hr, hpid, hnn⟩
    have hpe : getF (setF (setF (if pidPresent data then data
          else setF data "patient_id" (DBVal.text genId)) "created_at" (DBVal.text now))
          "updated_at" (DBVal.text now)) "patient_id" = effective_pid genId data := by
      rw [getF_setF_ne _ _ (by decide), getF_setF_ne _ _ (by decide)]
      unfold effective_pid
      by_cases h : pidPresent data
      · rw [if_pos h, if_pos h]
      · rw [if_neg h, if_neg h, getF_setF_eq]
    have hany : (store.any (fun rr => getF rr "patient_id" == effective_pid genId data
        && effective_pid genId data != DBVal.null)) = true := by
      rw [List.any_eq_true]
      exact ⟨r, hr, by simp [hpid, bne_iff_ne, hnn]⟩
    simp only [create_record]
    rw [hpe, hany]
    simp
  · intro newRec store hnn
    constructor
    · simp [insert_or_replace]
    · intro r hr hpid hne hmem
      simp only [insert_or_replace] at hmem
      rcases List.mem_append.mp hmem with hm | hm
      · have hpred := (List.mem_filter.mp hm).2
        simp [hpid, bne_iff_ne, hnn] at hpred
      · simp only [List.mem_singleton] at hm
        exact hne hm

/-- Witness for C4: a create with the already-stored patient id "P1" is
rejected with the store unchanged, and the import-path replacement row is
present after insert. -/
theorem c4_witness :
    create_record "G1" "2025-01-01 00:00:00" [("patient_id", DBVal.text "P1")] [rec1]
      = (.error .integrityError, [rec1])
    ∧ setF [("patient_id", DBVal.text "P1"), ("full_name", DBVal.text "Bob Stone")] "id"
        (.intv (nextId [rec1]))
      ∈ insert_or_replace
          [("patient_id", DBVal.text "P1"), ("full_name", DBVal.text "Bob Stone")] [rec1] := by
  constructor
  · exact c4_duplicate_handling.1 "G1" "2025-01-01 00:00:00" _ [rec1]
      ⟨rec1, by simp, by decide, by decide⟩
  · exact (c4_duplicate_handling.2 _ [rec1] (by decide)).1


/-- The importer's column matching, applied to the export's own headers,
yields exactly `importMapping`. -/
theorem buildMapping_headers : buildMapping get_excel_headers = importMapping := by decide

/-- The exported cell under 'Patient ID'. -/
theorem exCellPid (p fn dob ag g dv tv nn vrc vd tp hr sy di no : DBVal) :
    rowGet (toDfRow (export_row (canonRecV p fn dob ag g dv tv nn vrc vd tp hr sy di no)))
        "Patient ID"
      = (if format_value_for_excel p = "" then none
         else some (format_value_for_excel p)) := rfl

/-- The exported cell under 'Full Name'. -/
theorem exCellFullName (p fn dob ag g dv tv nn vrc vd tp hr sy di no : DBVal) :
    rowGet (toDfRow (export_row (canonRecV p fn dob ag g dv tv nn vrc vd tp hr sy di no)))
        "Full Name"
      = (if format_value_for_excel fn = "" then none
         else some (format_value_for_excel fn)) := rfl

/-- The exported cell under 'Date of Birth'. -/
theorem exCellDob (p fn dob ag g dv tv nn vrc vd tp hr sy di no : DBVal) :
    rowGet (toDfRow (export_row (canonRecV p fn dob ag g dv tv nn vrc vd tp hr sy di no)))
        "Date of Birth"
      = (if format_value_for_excel dob = "" then none
         else some (format_value_for_excel dob)) := rfl

/-- The exported cell under 'Age'. -/
theorem exCellAge (p fn dob ag g dv tv nn vrc vd tp hr sy di no : DBVal) :
    rowGet (toDfRow (export_row (canonRecV p fn dob ag g dv tv nn vrc vd tp hr sy di no)))
        "Age"
      = (if format_value_for_excel ag = "" then none
         else some (format_value_for_excel ag)) := rfl

/-- The exported cell under 'Gender'. -/
theorem exCellGender (p fn dob ag g dv tv nn vrc vd tp hr sy di no : DBVal) :
    rowGet (toDfRow (export_row (canonRecV p fn dob ag g dv tv nn vrc vd tp hr sy di no)))
        "Gender"
      = (if format_value_for_excel g = "" then none
         else some (format_value_for_excel g)) := rfl

/-- The exported cell under 'Date of Visit'. -/
theorem exCellDv (p fn dob ag g dv tv nn vrc vd tp hr sy di no : DBVal) :
    rowGet (toDfRow (export_row (canonRecV p fn dob ag g dv tv nn vrc vd tp hr sy di no)))
        "Date of Visit"
      = (if format_value_for_excel dv = "" then none
         else some (format_value_for_excel dv)) := rfl

/-- The exported cell under 'Time of Visit'. -/
theorem exCellTv (p fn dob ag g dv tv nn vrc vd tp hr sy di no : DBVal) :
    rowGet (toDfRow (export_row (canonRecV p fn dob ag g dv tv nn vrc vd tp hr sy di no)))
        "Time of Visit"
      = (if format_value_for_excel tv = "" then none
         else some (format_value_for_excel tv)) := rfl

/-- The exported cell under 'Nurse Name'. -/
theorem exCellNn (p fn dob ag g dv tv nn vrc vd tp hr sy di no : DBVal) :
    rowGet (toDfRow (export_row (canonRecV p fn dob ag g dv tv nn vrc vd tp hr sy di no)))
        "Nurse Name"
      = (if format_value_for_excel nn = "" then none
         else some (format_value_for_excel nn)) := rfl

/-- The exported cell under 'Visit Reason Category': the stored category with the legacy fallback. -/
theorem exCellVrc (p fn dob ag g dv tv nn vrc vd tp hr sy di no : DBVal) :
    rowGet (toDfRow (export_row (canonRecV p fn dob ag g dv tv nn vrc vd tp hr sy di no)))
        "Visit Reason Category"
      = (if format_value_for_excel (pyOrV vrc DBVal.null) = "" then none
         else some (format_value_for_excel (pyOrV vrc DBVal.null))) := rfl

/-- The exported cell under 'Visit Details'. -/
theorem exCellVd (p fn dob ag g dv tv nn vrc vd tp hr sy di no : DBVal) :
    rowGet (toDfRow (export_row (canonRecV p fn dob ag g dv tv nn vrc vd tp hr sy di no)))
        "Visit Details"
      = (if format_value_for_excel vd = "" then none
         else some (format_value_for_excel vd)) := rfl

/-- The exported cell under 'Temperature (deg C)'. -/
theorem exCellTemp (p fn dob ag g dv tv nn vrc vd tp hr sy di no : DBVal) :
    rowGet (toDfRow (export_row (canonRecV p fn dob ag g dv tv nn vrc vd tp hr sy di no)))
        "Temperature (°C)"
      = (if format_value_for_excel tp = "" then none
         else some (format_value_for_excel tp)) := rfl

/-- The exported cell under 'Pulse (bpm)' carries the heart rate. -/
theorem exCellPulse (p fn dob ag g dv tv nn vrc vd tp hr sy di no : DBVal) :
    rowGet (toDfRow (export_row (canonRecV p fn dob ag g dv tv nn vrc vd tp hr sy di no)))
        "Pulse (bpm)"
      = (if format_value_for_excel hr = "" then none
         else some (format_value_for_excel hr)) := rfl

/-- The exported cell under 'Blood Pressure (mmHg)' recombines the split values (the legacy combined column of a canonical record is NULL). -/
theorem exCellBp (p fn dob ag g dv tv nn vrc vd tp hr sy di no : DBVal) :
    rowGet (toDfRow (export_row (canonRecV p fn dob ag g dv tv nn vrc vd tp hr sy di no)))
        "Blood Pressure (mmHg)"
      = (if (if sy ≠ DBVal.null ∧ di ≠ DBVal.null then pyFStr sy ++ "/" ++ pyFStr di else "")
            = "" then none
         else some (if sy ≠ DBVal.null ∧ di ≠ DBVal.null then pyFStr sy ++ "/" ++ pyFStr di
                    else "")) := rfl

/-- The exported cell under 'Notes'. -/
theorem exCellNotes (p fn dob ag g dv tv nn vrc vd tp hr sy di no : DBVal) :
    rowGet (toDfRow (export_row (canonRecV p fn dob ag g dv tv nn vrc vd tp hr sy di no)))
        "Notes"
      = (if format_value_for_excel no = "" then none
         else some (format_value_for_excel no)) := rfl

/-- C6, corrected: re-importing an exported canonical record preserves the
required fields and the populated optional fields the two header mappings
both support -- patient id, full name, date of birth, age, gender, visit
date and time, nurse name, visit reason category, visit details,
temperature, heart rate, the split blood pressure and notes -- under
well-formedness of the stored values (trimmed non-empty names, round-trip
dates and time, integer age and heart rate, non-negative integer blood
pressure, decimal-rendering temperature).  Fields outside the mapping
(grade level among them, see the counterexample) are not preserved. -/
theorem c6_round_trip
    (genId now pidS fnS dobS dvS tvS nnS gS vrcS vdS notesS : String)
    (dobD dvD : Nat × Nat × Nat) (ageN hrN : Int) (sysN diaN : Nat) (tempQ : Rat)
    (hpid1 : trimStr pidS.data = pidS.data) (hpid2 : pidS ≠ "")
    (hfn1 : trimStr fnS.data = fnS.data) (hfn2 : fnS ≠ "")
    (hdob1 : parseYMD dobS.data = some dobD) (hdob2 : fmtYMD dobD = dobS)
    (hdob3 : dobS ≠ "")
    (hdv1 : parseYMD dvS.data = some dvD) (hdv2 : fmtYMD dvD = dvS) (hdv3 : dvS ≠ "")
    (htv1 : timeOfVisitStr (some tvS) = tvS) (htv2 : tvS ≠ "")
    (hnn1 : trimStr nnS.data = nnS.data) (hnn2 : nnS ≠ "")
    (hg : gS ≠ "") (hvrc : vrcS ≠ "") (hvd : vdS ≠ "") (hnotes : notesS ≠ "")
    (hage : pyIntParse (Int.repr ageN) = some ageN)
    (hhr : pyIntParse (Int.repr hrN) = some hrN)
    (hbp : bpParse (Int.repr (sysN : Int) ++ "/" ++ Int.repr (diaN : Int)).data
        = (some sysN, some diaN))
    (htemp1 : pyFloatParse (ratDecText tempQ) = some tempQ)
    (htemp2 : ratDecText tempQ ≠ "") :
    web_round_trip
        (canonRecV (.text pidS) (.text fnS) (.text dobS) (.intv ageN) (.text gS)
          (.text dvS) (.text tvS) (.text nnS) (.text vrcS) (.text vdS)
          (.realv tempQ) (.intv hrN) (.intv (sysN : Int)) (.intv (diaN : Int))
          (.text notesS)) genId now
      = .ok [("patient_id", .text pidS), ("full_name", .text fnS),
             ("date_of_birth", .text dobS), ("age", .intv ageN),
             ("gender", .text gS), ("grade_level", .null),
             ("date_of_visit", .text dvS), ("time_of_visit", .text tvS),
             ("nurse_name", .text nnS), ("visit_reason_category", .text vrcS),
             ("visit_details", .text vdS), ("temperature", .realv tempQ),
             ("heart_rate", .intv hrN), ("blood_pressure_systolic", .intv (sysN : Int)),
             ("blood_pressure_diastolic", .intv (diaN : Int)), ("notes", .text notesS),
             ("created_at", .text now)] := by
  have mPid : mappingFun importMapping "patient_id" = some "Patient ID" := rfl
  have mFn : mappingFun importMapping "full_name" = some "Full Name" := rfl
  have mDob : mappingFun importMapping "date_of_birth" = some "Date of Birth" := rfl
  have mAge : mappingFun importMapping "age" = some "Age" := rfl
  have mGender : mappingFun importMapping "gender" = some "Gender" := rfl
  have mGrade : mappingFun importMapping "grade_level" = none := rfl
  have mDv : mappingFun importMapping "date_of_visit" = some "Date of Visit" := rfl
  have mTv : mappingFun importMapping "time_of_visit" = some "Time of Visit" := rfl
  have mNn : mappingFun importMapping "nurse_name" = some "Nurse Name" := rfl
  have mVrc : mappingFun importMapping "visit_reason_category" = none := rfl
  have mVr : mappingFun importMapping "visit_reason" = some "Visit Reason Category" := rfl
  have mVd : mappingFun importMapping "visit_details" = some "Visit Details" := rfl
  have mTemp : mappingFun importMapping "temperature" = some "Temperature (°C)" := rfl
  have mHr : mappingFun importMapping "heart_rate" = none := rfl
  have mPulse : mappingFun importMapping "pulse" = some "Pulse (bpm)" := rfl
  have mBp : mappingFun importMapping "blood_pressure" = some "Blood Pressure (mmHg)" := rfl
  have mNotes : mappingFun importMapping "notes" = some "Notes" := rfl
  have hmkP : String.mk pidS.data = pidS := rfl
  have hmkF : String.mk fnS.data = fnS := rfl
  have hmkN : String.mk nnS.data = nnS := rfl
  have hagene : Int.repr ageN ≠ "" := by
    intro he
    rw [he, show pyIntParse "" = none from rfl] at hage
    exact Option.noConfusion hage
  have hhrne : Int.repr hrN ≠ "" := by
    intro he
    rw [he, show pyIntParse "" = none from rfl] at hhr
    exact Option.noConfusion hhr
  have hbpne : Int.repr (sysN : Int) ++ "/" ++ Int.repr (diaN : Int) ≠ "" := by
    intro he
    rw [he, show bpParse ("" : String).data = (none, none) from rfl] at hbp
    exact Option.noConfusion (congrArg Prod.fst hbp)
  have hcond : (¬DBVal.intv (sysN : Int) = DBVal.null ∧ ¬DBVal.intv (diaN : Int) = DBVal.null) :=
    ⟨fun h => DBVal.noConfusion h, fun h => DBVal.noConfusion h⟩
  unfold web_round_trip
  rw [buildMapping_headers]
  unfold processRow
  simp only [mPid, mFn, mDob, mAge, mGender, mGrade, mDv, mTv, mNn, mVrc, mVr, mVd,
    mTemp, mHr, mPulse, mBp, mNotes, Option.getD_some,
    exCellPid, exCellFullName, exCellDob, exCellAge, exCellGender, exCellDv, exCellTv,
    exCellNn, exCellVrc, exCellVd, exCellTemp, exCellPulse, exCellBp, exCellNotes,
    format_value_for_excel, pyFStr, pyOrV, DBVal.truthy, cellStr, notna, pdDate,
    optStrCol, optTextV, optIntV, optNatV, optRealV,
    hpid1, hfn1, hnn1, hmkP, hmkF, hmkN, hdob1, hdob2, hdv1, hdv2, htv1,
    hage, hhr, hbp, htemp1,
    hpid2, hfn2, hdob3, hdv3, htv2, hnn2, hg, hvrc, hvd, hnotes,
    hagene, hhrne, hbpne, htemp2,
    hcond, and_self,
    Option.map_some', pure_bind, bne_iff_ne, ne_eq, ite_true, ite_false,
    if_true, if_false, beq_iff_eq, not_false_eq_true, decide_True, decide_False]

/-- Witness for C6: a concrete fully-populated canonical record
round-trips onto itself on all preserved fields. -/
theorem c6_witness :
    web_round_trip (canonRecV (DBVal.text "P1") (DBVal.text "Alice Smith")
        (DBVal.text "2010-05-01") (DBVal.intv 14) (DBVal.text "F")
        (DBVal.text "2024-03-01") (DBVal.text "09:00") (DBVal.text "Nurse Joy")
        (DBVal.text "Illness") (DBVal.text "flu") (DBVal.realv 37) (DBVal.intv 70)
        (DBVal.intv 120) (DBVal.intv 80) (DBVal.text "ok")) "G" "2025-01-01 00:00:00"
      = .ok [("patient_id", DBVal.text "P1"), ("full_name", DBVal.text "Alice Smith"),
             ("date_of_birth", DBVal.text "2010-05-01"), ("age", DBVal.intv 14),
             ("gender", DBVal.text "F"), ("grade_level", DBVal.null),
             ("date_of_visit", DBVal.text "2024-03-01"),
             ("time_of_visit", DBVal.text "09:00"),
             ("nurse_name", DBVal.text "Nurse Joy"),
             ("visit_reason_category", DBVal.text "Illness"),
             ("visit_details", DBVal.text "flu"), ("temperature", DBVal.realv 37),
             ("heart_rate", DBVal.intv 70), ("blood_pressure_systolic", DBVal.intv 120),
             ("blood_pressure_diastolic", DBVal.intv 80), ("notes", DBVal.text "ok"),
             ("created_at", DBVal.text "2025-01-01 00:00:00")] :=
  c6_round_trip "G" "2025-01-01 00:00:00" "P1" "Alice Smith" "2010-05-01" "2024-03-01"
    "09:00" "Nurse Joy" "F" "Illness" "flu" "ok" (2010, 5, 1) (2024, 3, 1) 14 70 120 80 37
    (by decide) (by decide) (by decide) (by decide) (by decide) (by decide) (by decide)
    (by decide) (by decide) (by decide) (by decide) (by decide) (by decide) (by decide)
    (by decide) (by decide) (by decide) (by decide) (by decide) (by decide) (by decide)
    (by
      rw [show ratDecText (37 : Rat) = "37.0" from rfl]
      rw [show pyFloatParse "37.0"
          = some ((1 : Rat) * ((decVal ['3', '7'] : Rat)
              + (decVal ['0'] : Rat) / ((10 : Rat) ^ (1 : Nat)))) from rfl]
      norm_num [show (decVal ['3', '7'] : Nat) = 37 from rfl,
        show (decVal ['0'] : Nat) = 0 from rfl])
    (by decide)

/-- Counterexample for C6: a fully-populated canonical record with grade
level "5" round-trips to a record whose grade level is NULL -- the export
writes it under 'Grade/Year Level', which the importer's substring
matching never maps back to `grade_level` -- while a preserved field such
as the full name survives. -/
theorem c6_counterexample :
    getF gradeRec "grade_level" = DBVal.text "5"
    ∧ (web_round_trip gradeRec "G" "2025-01-01 00:00:00").map
        (fun o => (getF o "grade_level", getF o "full_name"))
      = .ok (DBVal.null, DBVal.text "Alice Smith") := ⟨rfl, rfl⟩

end HealthLog
